import Mathlib

/-!
# vault-plugin-accounts-mock: the scoped storage and request handlers

A shallow embedding of `src/vault-plugin-accounts-mock/backend.go`.

* Go strings are modelled as `String` (sequences of Unicode scalar values, i.e. valid UTF-8).
* A `[]byte` payload is modelled as the text it holds, `List Char`; a nil slice is `none`.
* `json.Marshal` and `jsonutil.DecodeJSON` are library calls of the handlers; they are modelled
  by `jsonMarshal` and `DecodeJSON` below, for the one Go type they are used at (`Account`).
  The decompression readers and the text of the JSON decoder's errors are not modelled: they
  are the parameter `Library` of the read handlers.
* The storage gateway `req.Storage` is modelled by `Storage`: the stored entries, the failures
  the gateway answers with, and a journal of the calls made to it.
* A Go handler returns `(resp, err)` or stops with a run-time panic: `Outcome`.
* `b.Logger().Info(...)` writes a log line and is left out.
-/

namespace Mock

/-! ## The record -/

/-- The Go struct `Account` (backend.go, lines 20-24). -/
structure Account where
  AccountId : String
  PublicKey : String
  PrivateKey : String
  deriving DecidableEq, Repr

/-- A Go `error` value, by its message. -/
abbrev Error := String

/-! ## json.Marshal at type Account -/

namespace Codec

def quote : Char := Char.ofNat 34
def backslash : Char := Char.ofNat 92

/-- One digit of the table `0123456789abcdef`. -/
def hexDigit (n : Nat) : Char :=
  if n < 10 then Char.ofNat (48 + n) else Char.ofNat (87 + n)

/-- The six characters of a `\u00XX` escape of a character below U+0100. -/
def escapeU00 (c : Char) : List Char :=
  [backslash, 'u', '0', '0', hexDigit (c.toNat / 16), hexDigit (c.toNat % 16)]

/-- How `json.Marshal` writes one character of a string (HTML escaping on, its default). -/
def escapeChar (c : Char) : List Char :=
  if c = quote then [backslash, quote]
  else if c = backslash then [backslash, backslash]
  else if c = Char.ofNat 10 then [backslash, 'n']
  else if c = Char.ofNat 13 then [backslash, 'r']
  else if c = Char.ofNat 9 then [backslash, 't']
  else if c.toNat < 32 then escapeU00 c
  else if c = '<' ∨ c = '>' ∨ c = '&' then escapeU00 c
  else if c = Char.ofNat 0x2028 then [backslash, 'u', '2', '0', '2', '8']
  else if c = Char.ofNat 0x2029 then [backslash, 'u', '2', '0', '2', '9']
  else [c]

/-- The body of a JSON string literal, without its quotes. -/
def escapeBody : List Char → List Char
  | [] => []
  | c :: cs => escapeChar c ++ escapeBody cs

/-- A Go string as a JSON string literal. -/
def encodeString (s : String) : List Char :=
  quote :: (escapeBody s.data ++ [quote])

/-- The object `json.Marshal` writes for an `Account`: the three exported fields, in the order
of their declaration, under their Go names. -/
def encodeAccount (a : Account) : List Char :=
  '{' :: (encodeString "AccountId" ++ ':' :: encodeString a.AccountId)
    ++ ',' :: (encodeString "PublicKey" ++ ':' :: encodeString a.PublicKey)
    ++ ',' :: (encodeString "PrivateKey" ++ ':' :: encodeString a.PrivateKey)
    ++ ['}']

/-! ## jsonutil.DecodeJSON at type Account -/

/-- A parsed JSON value; a number is kept as its literal (`UseNumber`). -/
inductive JValue where
  | null
  | bool (b : Bool)
  | num (lit : List Char)
  | str (s : List Char)
  | arr (xs : List JValue)
  | obj (kvs : List (List Char × JValue))

def isSpace (c : Char) : Bool :=
  c = ' ' || c = Char.ofNat 9 || c = Char.ofNat 13 || c = Char.ofNat 10

def skipSpace : List Char → List Char
  | [] => []
  | c :: cs => if isSpace c then skipSpace cs else c :: cs

def isDigit (c : Char) : Bool := 48 ≤ c.toNat && c.toNat ≤ 57

/-- The value of a hexadecimal digit, in either case. -/
def hexVal (c : Char) : Option Nat :=
  if 48 ≤ c.toNat ∧ c.toNat ≤ 57 then some (c.toNat - 48)
  else if 97 ≤ c.toNat ∧ c.toNat ≤ 102 then some (c.toNat - 87)
  else if 65 ≤ c.toNat ∧ c.toNat ≤ 70 then some (c.toNat - 55)
  else none

/-- Go `getu4`: the sixteen-bit value of the four digits of a `\uXXXX` escape. -/
def getu4 (a b c d : Char) : Option Nat :=
  match hexVal a, hexVal b, hexVal c, hexVal d with
  | some x, some y, some z, some w => some (((x * 16 + y) * 16 + z) * 16 + w)
  | _, _, _, _ => none

/-- The character a two-character escape stands for. -/
def unescape (e : Char) : Option Char :=
  if e = quote then some quote
  else if e = backslash then some backslash
  else if e = '/' then some '/'
  else if e = 'b' then some (Char.ofNat 8)
  else if e = 'f' then some (Char.ofNat 12)
  else if e = 'n' then some (Char.ofNat 10)
  else if e = 'r' then some (Char.ofNat 13)
  else if e = 't' then some (Char.ofNat 9)
  else none

/-- One item of a string literal: a character, or the value of a `\uXXXX` escape. -/
inductive StrUnit where
  | lit (c : Char)
  | u16 (n : Nat)

/-- Reads the body of a string literal up to its closing quote (the opening quote is already
read). A raw control character, an unknown escape or a missing quote is an error. -/
def scanString : List Char → Option (List StrUnit × List Char)
  | [] => none
  | c :: cs =>
    if c = quote then some ([], cs)
    else if c = backslash then
      match cs with
      | [] => none
      | e :: rest =>
        if e = 'u' then
          match rest with
          | a :: b :: x :: d :: rest4 =>
            match getu4 a b x d with
            | none => none
            | some n =>
              match scanString rest4 with
              | none => none
              | some (us, r) => some (StrUnit.u16 n :: us, r)
          | _ => none
        else
          match unescape e with
          | none => none
          | some x =>
            match scanString rest with
            | none => none
            | some (us, r) => some (StrUnit.lit x :: us, r)
    else if c.toNat < 32 then none
    else
      match scanString cs with
      | none => none
      | some (us, r) => some (StrUnit.lit c :: us, r)

def isSurrogate (n : Nat) : Bool := 0xD800 ≤ n && n < 0xE000

/-- The replacement character U+FFFD. -/
def replacementChar : Char := Char.ofNat 0xFFFD

/-- Go `unquote` on the escapes: a high surrogate followed by a low one is one character, any
other surrogate is replaced by U+FFFD. -/
def combine : List StrUnit → List Char
  | [] => []
  | StrUnit.lit c :: us => c :: combine us
  | StrUnit.u16 n :: us =>
    let after := combine us
    if isSurrogate n then
      match us with
      | StrUnit.u16 m :: us2 =>
        if n < 0xDC00 ∧ 0xDC00 ≤ m ∧ m < 0xE000 then
          Char.ofNat ((n - 0xD800) * 1024 + (m - 0xDC00) + 0x10000) :: combine us2
        else replacementChar :: after
      | _ => replacementChar :: after
    else Char.ofNat n :: after

def takeDigits : List Char → List Char × List Char
  | [] => ([], [])
  | c :: cs =>
    if isDigit c then ((c :: (takeDigits cs).1), (takeDigits cs).2) else ([], c :: cs)

/-- At least one digit. -/
def takeDigits1 (cs : List Char) : Option (List Char × List Char) :=
  match takeDigits cs with
  | ([], _) => none
  | (ds, r) => some (ds, r)

/-- The integer part of a number: `0`, or a digit from 1 to 9 and more digits. -/
def scanInt : List Char → Option (List Char × List Char)
  | [] => none
  | c :: cs =>
    if c = '0' then some (['0'], cs)
    else if isDigit c then some (c :: (takeDigits cs).1, (takeDigits cs).2)
    else none

def scanFrac : List Char → Option (List Char × List Char)
  | '.' :: cs =>
    match takeDigits1 cs with
    | none => none
    | some (ds, r) => some ('.' :: ds, r)
  | cs => some ([], cs)

def scanSign : List Char → List Char × List Char
  | c :: cs => if c = '+' ∨ c = '-' then ([c], cs) else ([], c :: cs)
  | [] => ([], [])

def scanExp : List Char → Option (List Char × List Char)
  | [] => some ([], [])
  | c :: cs =>
    if c = 'e' ∨ c = 'E' then
      match takeDigits1 (scanSign cs).2 with
      | none => none
      | some (ds, r) => some (c :: ((scanSign cs).1 ++ ds), r)
    else some ([], c :: cs)

/-- A JSON number literal. -/
def scanNumber (cs : List Char) : Option (List Char × List Char) :=
  let signed := match cs with
    | c :: r => if c = '-' then (['-'], r) else ([], c :: r)
    | [] => ([], [])
  match scanInt signed.2 with
  | none => none
  | some (i, r1) =>
    match scanFrac r1 with
    | none => none
    | some (f, r2) =>
      match scanExp r2 with
      | none => none
      | some (e, r3) => some (signed.1 ++ i ++ f ++ e, r3)

/-- Reads the word `w` off the front of the input. -/
def expect : List Char → List Char → Option (List Char)
  | [], cs => some cs
  | _ :: _, [] => none
  | w :: ws, c :: cs => if w = c then expect ws cs else none

mutual
/-- One JSON value; `fuel` bounds the nesting and the number of items read. -/
def parseValue : Nat → List Char → Option (JValue × List Char)
  | 0, _ => none
  | fuel + 1, cs =>
    match skipSpace cs with
    | [] => none
    | c :: rest =>
      if c = '{' then
        match skipSpace rest with
        | [] => none
        | c2 :: r2 =>
          if c2 = '}' then some (JValue.obj [], r2)
          else
            match parseMembers fuel (c2 :: r2) with
            | none => none
            | some (kvs, r) => some (JValue.obj kvs, r)
      else if c = '[' then
        match skipSpace rest with
        | [] => none
        | c2 :: r2 =>
          if c2 = ']' then some (JValue.arr [], r2)
          else
            match parseElems fuel (c2 :: r2) with
            | none => none
            | some (xs, r) => some (JValue.arr xs, r)
      else if c = quote then
        match scanString rest with
        | none => none
        | some (us, r) => some (JValue.str (combine us), r)
      else if c = 't' then
        match expect ['r', 'u', 'e'] rest with
        | none => none
        | some r => some (JValue.bool true, r)
      else if c = 'f' then
        match expect ['a', 'l', 's', 'e'] rest with
        | none => none
        | some r => some (JValue.bool false, r)
      else if c = 'n' then
        match expect ['u', 'l', 'l'] rest with
        | none => none
        | some r => some (JValue.null, r)
      else
        match scanNumber (c :: rest) with
        | none => none
        | some (lit, r) => some (JValue.num lit, r)
/-- The members of an object after its opening brace, up to the closing brace. -/
def parseMembers : Nat → List Char → Option (List (List Char × JValue) × List Char)
  | 0, _ => none
  | fuel + 1, cs =>
    match skipSpace cs with
    | [] => none
    | c :: rest =>
      if c = quote then
        match scanString rest with
        | none => none
        | some (us, r1) =>
          match skipSpace r1 with
          | [] => none
          | c2 :: r2 =>
            if c2 = ':' then
              match parseValue fuel r2 with
              | none => none
              | some (v, r3) =>
                match skipSpace r3 with
                | [] => none
                | c3 :: r4 =>
                  if c3 = '}' then some ([(combine us, v)], r4)
                  else if c3 = ',' then
                    match parseMembers fuel r4 with
                    | none => none
                    | some (kvs, r) => some ((combine us, v) :: kvs, r)
                  else none
            else none
      else none
/-- The elements of an array after its opening bracket, up to the closing bracket. -/
def parseElems : Nat → List Char → Option (List JValue × List Char)
  | 0, _ => none
  | fuel + 1, cs =>
    match parseValue fuel cs with
    | none => none
    | some (v, r1) =>
      match skipSpace r1 with
      | [] => none
      | c :: r2 =>
        if c = ']' then some ([v], r2)
        else if c = ',' then
          match parseElems fuel r2 with
          | none => none
          | some (xs, r) => some (v :: xs, r)
        else none
end

/-- How the decoder compares an object key with a field name: letters of either case are
the same letter, and so is the Kelvin sign with `K` (the only non-ASCII character that folds
to a letter of the three field names). -/
def foldChar (c : Char) : Char :=
  if 97 ≤ c.toNat ∧ c.toNat ≤ 122 then Char.ofNat (c.toNat - 32)
  else if c = Char.ofNat 0x212A then 'K'
  else c

def sameField (key : List Char) (name : String) : Bool :=
  key.map foldChar = name.data.map foldChar

/-- The value of one member put into a string field: a string is stored, `null` leaves the
field as it is, any other value is a type error (`none`). -/
def assignString (old : String) : JValue → Option String
  | JValue.str s => some (String.mk s)
  | JValue.null => some old
  | _ => none

/-- One member of the object stored into the record; a key that names no field is skipped,
a value of the wrong type is an error (`none`). -/
def setField (a : Account) (key : List Char) (v : JValue) : Option Account :=
  if sameField key "AccountId" then
    match assignString a.AccountId v with
    | none => none
    | some s => some { a with AccountId := s }
  else if sameField key "PublicKey" then
    match assignString a.PublicKey v with
    | none => none
    | some s => some { a with PublicKey := s }
  else if sameField key "PrivateKey" then
    match assignString a.PrivateKey v with
    | none => none
    | some s => some { a with PrivateKey := s }
  else some a

/-- The members stored in order, a later member overwriting an earlier one. -/
def setFields (a : Account) : List (List Char × JValue) → Option Account
  | [] => some a
  | (k, v) :: kvs =>
    match setField a k v with
    | none => none
    | some a2 => setFields a2 kvs

/-- A parsed value stored into a record that starts as `a`: an object fills the fields,
`null` changes nothing, any other value is a type error (`none`). -/
def toAccount (a : Account) : JValue → Option Account
  | JValue.obj kvs => setFields a kvs
  | JValue.null => some a
  | _ => none

/-- The first JSON value of the text, as `json.NewDecoder(r).Decode` reads it: what follows
the value is not looked at. -/
def parseJSON (data : List Char) : Option JValue :=
  match parseValue (data.length + 1) data with
  | none => none
  | some (v, _) => some v

end Codec

/-- Go `json.Marshal(newAccount)`: a struct of three strings always encodes, so the error
result is never set. -/
def jsonMarshal (a : Account) : Except Error (List Char) :=
  .ok (Codec.encodeAccount a)

/-- What the handlers take from the libraries behind `jsonutil.DecodeJSON` without this file
modelling it: the decompression readers of `compressutil.Decompress`, and the text of the
error `encoding/json` reports for a text it does not decode into an `Account`. The theorems
hold for every such library. -/
structure Library where
  /-- Go `compressutil.Decompress` on data that starts with a compression canary: given the
  canary and the data after it, an error or the decompressed data. -/
  decompress : Char → List Char → Except Error (List Char)
  /-- The error of `json.NewDecoder(r).Decode(&rawData)` on a text it rejects. -/
  jsonError : List Char → Error

/-- The compression canaries of `compressutil`: the first byte of compressed data (`G` gzip,
`L` LZW, `S` Snappy, `4` LZ4). -/
def isCanary (c : Char) : Bool :=
  c = 'G' || c = 'L' || c = 'S' || c = '4'

/-- Go `jsonutil.DecodeJSONFromReader` into the zero record `var rawData Account`: the text is
parsed and stored into the record; a text that is not JSON, or whose value does not fit the
record, is the library's error. -/
def DecodeJSONFromReader (lib : Library) (text : List Char) : Except Error Account :=
  match Codec.parseJSON text with
  | none => .error (lib.jsonError text)
  | some v =>
    match Codec.toAccount ⟨"", "", ""⟩ v with
    | none => .error (lib.jsonError text)
    | some a => .ok a

/-- Go `jsonutil.DecodeJSON(fetchedData, &rawData)` with `var rawData Account`: nil or empty
data is an error; data that starts with a compression canary is decompressed first, and a
failing or empty decompression is an error; then the data is decoded. -/
def DecodeJSON (lib : Library) (data : Option (List Char)) : Except Error Account :=
  match data with
  | none => .error "'data' being decoded is nil"
  | some [] => .error "'data' being decoded is nil"
  | some (c :: cs) =>
    if isCanary c then
      match lib.decompress c cs with
      | .error err => .error ("failed to decompress JSON: " ++ err)
      | .ok [] => .error "decompressed data being decoded is invalid"
      | .ok (d :: ds) => DecodeJSONFromReader lib (d :: ds)
    else DecodeJSONFromReader lib (c :: cs)

/-! ## Requests, responses and the storage gateway -/

/-- A value of a request or response data map (`interface{}`), as far as the handlers use it. -/
inductive Value where
  | str (s : String)
  | bool (b : Bool)
  deriving DecidableEq, Repr

/-- Go `logical.Response`, by its `Data` map (written as the list of its fields). -/
structure Response where
  Data : List (String × Value)
  deriving DecidableEq, Repr

/-- Go `logical.ErrorResponse(text)`: a response whose data is the one field `error`. The Go
error returned next to it stays nil. -/
def ErrorResponse (text : String) : Response :=
  { Data := [("error", Value.str text)] }

/-- Go `logical.Request`, the fields the handlers read (`req.Storage` is passed on its own). -/
structure Request where
  ClientToken : String
  MountPoint : String
  Path : String
  Data : List (String × Value)

/-- Go `framework.FieldData`: the raw fields of the request. Every field the handlers read is
declared with `TypeString` in the pattern the handler is bound in. -/
structure FieldData where
  Raw : List (String × String)

/-- Go `data.Get(k).(string)`: the value of the field, or the zero value `""` when the
request has no such field. -/
def FieldData.Get (d : FieldData) (k : String) : String :=
  match d.Raw.lookup k with
  | some v => v
  | none => ""

/-- Go `logical.StorageEntry`; `Value` is a `[]byte`, nil or the payload. -/
structure StorageEntry where
  Key : String
  Value : Option (List Char)
  SealWrap : Bool
  deriving DecidableEq, Repr

/-- A call made to the storage gateway. -/
inductive StorageCall where
  | get (key : String)
  | put (key : String)
  | delete (key : String)
  deriving DecidableEq, Repr

/-- The storage gateway behind `req.Storage`: what is stored under each key, the error (if
any) each of its three operations answers with at a key, and the journal of the calls made. -/
structure Storage where
  entries : String → Option StorageEntry
  getErr : String → Option Error
  putErr : String → Option Error
  deleteErr : String → Option Error
  calls : List StorageCall

/-- The gateway with one more call in its journal. -/
def Storage.record (s : Storage) (c : StorageCall) : Storage :=
  { s with calls := s.calls ++ [c] }

/-- Go `req.Storage.Get(ctx, key)`: an error, or the entry under `key`, nil when there is none. -/
def Storage.Get (s : Storage) (key : String) : Except Error (Option StorageEntry) × Storage :=
  match s.getErr key with
  | some err => (.error err, s.record (StorageCall.get key))
  | none => (.ok (s.entries key), s.record (StorageCall.get key))

/-- Go `req.Storage.Put(ctx, entry)`: an error and nothing stored, or the entry stored under
its key in place of what was there. -/
def Storage.Put (s : Storage) (entry : StorageEntry) : Option Error × Storage :=
  match s.putErr entry.Key with
  | some err => (some err, s.record (StorageCall.put entry.Key))
  | none =>
    (none, { s.record (StorageCall.put entry.Key) with
      entries := fun k => if k = entry.Key then some entry else s.entries k })

/-- Go `req.Storage.Delete(ctx, key)`: an error and nothing removed, or the key emptied
(whether or not it held an entry). -/
def Storage.Delete (s : Storage) (key : String) : Option Error × Storage :=
  match s.deleteErr key with
  | some err => (some err, s.record (StorageCall.delete key))
  | none =>
    (none, { s.record (StorageCall.delete key) with
      entries := fun k => if k = key then none else s.entries k })

/-- The gateway that holds nothing and never fails. -/
def Storage.empty : Storage :=
  { entries := fun _ => none, getErr := fun _ => none, putErr := fun _ => none,
    deleteErr := fun _ => none, calls := [] }

/-- How a call of a Go function ends: it returns its pair `(value, err)`, or it stops with a
run-time panic. -/
inductive Outcome (α : Type) where
  | returned (val : α) (err : Option Error)
  | panicked (msg : String)
  deriving DecidableEq, Repr

/-- The panic of reading a field through a nil pointer. -/
def nilDereference : String :=
  "runtime error: invalid memory address or nil pointer dereference"

/-! ## The handlers -/

/-- Go `handleExistenceCheckSign` (lines 89-96). -/
def handleExistenceCheckSign (s : Storage) (req : Request) (_data : FieldData) :
    (Bool × Option Error) × Storage :=
  match s.Get req.Path with
  | (.error err, s1) => ((false, some ("existence check failed: " ++ err)), s1)
  | (.ok out, s1) => ((out.isSome, none), s1)

/-- Go `handleReadSign` (lines 98-135). -/
def handleReadSign (lib : Library) (s : Storage) (req : Request) (data : FieldData) :
    Outcome (Option Response) × Storage :=
  if req.ClientToken = "" then
    (Outcome.returned none (some "client token empty"), s)
  else
    let accountId := data.Get "accountId"
    let message := data.Get "message"
    match s.Get (req.ClientToken ++ "/" ++ accountId) with
    | (.error err, s1) => (Outcome.returned none (some err), s1)
    | (.ok none, s1) => (Outcome.panicked nilDereference, s1)
    | (.ok (some entry), s1) =>
      match entry.Value with
      | none =>
        (Outcome.returned (some (ErrorResponse ("No value at " ++ req.MountPoint ++ accountId)))
          none, s1)
      | some fetchedData =>
        match DecodeJSON lib (some fetchedData) with
        | .error err => (Outcome.returned none (some ("json decoding failed: " ++ err)), s1)
        | .ok rawData =>
          let signatureEncode64 := message ++ "-" ++ rawData.PrivateKey ++ "-" ++ rawData.PublicKey
          (Outcome.returned (some { Data := [("signatureEncode64", Value.str signatureEncode64)] })
            none, s1)

/-- Go `handleExistenceCheckAccount` (lines 168-175). -/
def handleExistenceCheckAccount (s : Storage) (req : Request) (_data : FieldData) :
    (Bool × Option Error) × Storage :=
  match s.Get req.Path with
  | (.error err, s1) => ((false, some ("existence check failed: " ++ err)), s1)
  | (.ok out, s1) => ((out.isSome, none), s1)

/-- Go `handleReadAccount` (lines 177-213). -/
def handleReadAccount (lib : Library) (s : Storage) (req : Request) (data : FieldData) :
    Outcome (Option Response) × Storage :=
  if req.ClientToken = "" then
    (Outcome.returned none (some "client token empty"), s)
  else
    let accountId := data.Get "accountId"
    match s.Get (req.ClientToken ++ "/" ++ accountId) with
    | (.error err, s1) => (Outcome.returned none (some err), s1)
    | (.ok none, s1) => (Outcome.panicked nilDereference, s1)
    | (.ok (some entry), s1) =>
      match entry.Value with
      | none =>
        (Outcome.returned (some (ErrorResponse ("No value at " ++ req.MountPoint ++ accountId)))
          none, s1)
      | some fetchedData =>
        match DecodeJSON lib (some fetchedData) with
        | .error err => (Outcome.returned none (some ("json decoding failed: " ++ err)), s1)
        | .ok rawData =>
          let signatureEncode64 := rawData.PrivateKey ++ "-" ++ rawData.PublicKey
          (Outcome.returned (some { Data := [("signatureEncode64", Value.str signatureEncode64)] })
            none, s1)

/-- Go `handleWriteAccount` (lines 215-257). -/
def handleWriteAccount (s : Storage) (req : Request) (data : FieldData) :
    Outcome (Option Response) × Storage :=
  if req.ClientToken = "" then
    (Outcome.returned none (some "client token empty"), s)
  else if req.Data.length = 0 then
    (Outcome.returned none (some "data must be provided to store in secret"), s)
  else
    let accountId := data.Get "accountId"
    let newAccount : Account :=
      { AccountId := accountId, PublicKey := "0x1234", PrivateKey := "0x9876" }
    match jsonMarshal newAccount with
    | .error err => (Outcome.returned none (some ("json encoding failed: " ++ err)), s)
    | .ok buf =>
      let entry : StorageEntry :=
        { Key := req.ClientToken ++ "/" ++ accountId, Value := some buf, SealWrap := false }
      match s.Put entry with
      | (some err, s1) => (Outcome.returned none (some err), s1)
      | (none, s1) =>
        (Outcome.returned (some { Data := [("accountId", Value.str newAccount.AccountId),
            ("status", Value.bool true), ("txHash", Value.str newAccount.PrivateKey)] })
          none, s1)

/-- Go `handleExistenceCheck` (lines 298-305). -/
def handleExistenceCheck (s : Storage) (req : Request) (_data : FieldData) :
    (Bool × Option Error) × Storage :=
  match s.Get req.Path with
  | (.error err, s1) => ((false, some ("existence check failed: " ++ err)), s1)
  | (.ok out, s1) => ((out.isSome, none), s1)

/-- Go `handleRead` (lines 307-343). -/
def handleRead (lib : Library) (s : Storage) (req : Request) (data : FieldData) :
    Outcome (Option Response) × Storage :=
  if req.ClientToken = "" then
    (Outcome.returned none (some "client token empty"), s)
  else
    let path := data.Get "path"
    match s.Get (req.ClientToken ++ "/" ++ path) with
    | (.error err, s1) => (Outcome.returned none (some err), s1)
    | (.ok none, s1) => (Outcome.panicked nilDereference, s1)
    | (.ok (some entry), s1) =>
      match entry.Value with
      | none =>
        (Outcome.returned (some (ErrorResponse ("No value at " ++ req.MountPoint ++ path)))
          none, s1)
      | some fetchedData =>
        match DecodeJSON lib (some fetchedData) with
        | .error err => (Outcome.returned none (some ("json decoding failed: " ++ err)), s1)
        | .ok rawData =>
          let signatureEncode64 := rawData.PrivateKey ++ "-" ++ rawData.PublicKey
          (Outcome.returned (some { Data := [("signatureEncode64", Value.str signatureEncode64)] })
            none, s1)

/-- Go `handleWrite` (lines 345-392). -/
def handleWrite (s : Storage) (req : Request) (data : FieldData) :
    Outcome (Option Response) × Storage :=
  if req.ClientToken = "" then
    (Outcome.returned none (some "client token empty"), s)
  else if req.Data.length = 0 then
    (Outcome.returned none (some "data must be provided to store in secret"), s)
  else
    let path := data.Get "path"
    let accountId := data.Get "accountId"
    let newAccount : Account :=
      { AccountId := accountId, PublicKey := "0x1234", PrivateKey := "0x9876" }
    match jsonMarshal newAccount with
    | .error err => (Outcome.returned none (some ("json encoding failed: " ++ err)), s)
    | .ok buf =>
      let entry : StorageEntry :=
        { Key := req.ClientToken ++ "/" ++ path, Value := some buf, SealWrap := false }
      match s.Put entry with
      | (some err, s1) => (Outcome.returned none (some err), s1)
      | (none, s1) =>
        (Outcome.returned (some { Data := [("accountId", Value.str newAccount.AccountId),
            ("status", Value.bool true), ("txHash", Value.str newAccount.PrivateKey)] })
          none, s1)

/-- Go `handleDelete` (lines 394-407). -/
def handleDelete (s : Storage) (req : Request) (data : FieldData) :
    Outcome (Option Response) × Storage :=
  if req.ClientToken = "" then
    (Outcome.returned none (some "client token empty"), s)
  else
    let path := data.Get "path"
    match s.Delete (req.ClientToken ++ "/" ++ path) with
    | (some err, s1) => (Outcome.returned none (some err), s1)
    | (none, s1) => (Outcome.returned none none, s1)

/-! ## The backend and its paths -/

/-- Go `logical.Operation`, the verbs the paths bind. -/
inductive Operation where
  | CreateOperation
  | ReadOperation
  | UpdateOperation
  | DeleteOperation
  deriving DecidableEq, Repr

/-- Go `framework.FieldType`; every field of this backend is a `TypeString`. -/
inductive FieldType where
  | TypeString
  deriving DecidableEq, Repr

/-- Go `framework.FieldSchema` (its field `Type` is written `Kind`). -/
structure FieldSchema where
  Kind : FieldType
  Description : String
  deriving DecidableEq, Repr

/-- The type of a callback of an operation. -/
abbrev OperationFunc := Storage → Request → FieldData → Outcome (Option Response) × Storage

/-- The type of an existence check. -/
abbrev ExistenceFunc := Storage → Request → FieldData → (Bool × Option Error) × Storage

/-- Go `framework.PathOperation`. -/
structure PathOperation where
  Callback : OperationFunc
  Summary : String

/-- Go `framework.Path`, the fields this backend sets; the two maps are written as lists. -/
structure Path where
  Pattern : String
  Fields : List (String × FieldSchema)
  Operations : List (Operation × PathOperation)
  ExistenceCheck : Option ExistenceFunc

/-- Go `signPaths` (lines 61-87). -/
def signPaths (lib : Library) : List Path :=
  [{ Pattern := "sign",
     Fields := [("message", { Kind := FieldType.TypeString, Description :=
                   "Specifies the path of the secret." }),
                ("accountId", { Kind := FieldType.TypeString, Description :=
                   "Specifies the accountId of the secret." })],
     Operations := [(Operation.ReadOperation,
        { Callback := handleReadSign lib, Summary := "Retrieve the secret from the map." })],
     ExistenceCheck := some handleExistenceCheckSign }]

/-- Go `accountPaths` (lines 137-166). -/
def accountPaths (lib : Library) : List Path :=
  [{ Pattern := "account",
     Fields := [("accountId", { Kind := FieldType.TypeString, Description :=
                   "Specifies the accountId of the secret." })],
     Operations := [(Operation.ReadOperation,
        { Callback := handleReadAccount lib, Summary := "Retrieve the secret from the map." }),
       (Operation.CreateOperation, { Callback := handleWriteAccount, Summary := "" })],
     ExistenceCheck := some handleExistenceCheckAccount }]

/-- Go `framework.MatchAllRegex(name)`: the pattern that matches every path and binds it to
the field `name`. -/
def MatchAllRegex (name : String) : String :=
  "(?P<" ++ name ++ ">.*)"

/-- Go `paths` (lines 259-296). -/
def paths (lib : Library) : List Path :=
  [{ Pattern := MatchAllRegex "path",
     Fields := [("path", { Kind := FieldType.TypeString, Description :=
                   "Specifies the path of the secret." }),
                ("accountId", { Kind := FieldType.TypeString, Description :=
                   "Specifies the accountId of the secret." })],
     Operations := [(Operation.ReadOperation,
        { Callback := handleRead lib, Summary := "Retrieve the secret from the map." }),
       (Operation.UpdateOperation,
        { Callback := handleWrite, Summary := "Store a secret at the specified location." }),
       (Operation.CreateOperation, { Callback := handleWrite, Summary := "" }),
       (Operation.DeleteOperation,
        { Callback := handleDelete,
          Summary := "Deletes the secret at the specified location." })],
     ExistenceCheck := some handleExistenceCheck }]

/-- Go `framework.PathAppend`: the given lists of paths, one after the other. -/
def PathAppend (pathLists : List (List Path)) : List Path :=
  pathLists.flatten

/-- Go `framework.Backend`, the fields `newBackend` sets (`BackendType` is always
`logical.TypeLogical`). -/
structure Backend where
  Help : String
  Paths : List Path

/-- Go `mockHelp` after `strings.TrimSpace`. -/
def mockHelp : String :=
  "The Mock backend is a dummy secrets backend that stores kv pairs in a map."

/-- Go `newBackend` (lines 46-59); its error result is always nil. -/
def newBackend (lib : Library) : Except Error Backend :=
  .ok { Help := mockHelp, Paths := PathAppend [accountPaths lib, signPaths lib] }

/-- The path a backend registered under a pattern, if any. -/
def Backend.findPath (b : Backend) (pattern : String) : Option Path :=
  b.Paths.find? (fun p => p.Pattern = pattern)

/-- The callback a backend bound to a verb of a pattern, if any. -/
def Backend.callback (b : Backend) (pattern : String) (op : Operation) :
    Option OperationFunc :=
  match b.findPath pattern with
  | none => none
  | some p =>
    match p.Operations.lookup op with
    | none => none
    | some po => some po.Callback

/-- The entry a write handler stores under `key` for the field value `accountId`
(lines 228-241 and 363-376). -/
def writtenEntry (key accountId : String) : StorageEntry :=
  { Key := key, Value := some (Codec.encodeAccount ⟨accountId, "0x1234", "0x9876"⟩),
    SealWrap := false }

/-! ## Sequences of handler calls -/

/-- The nine handlers of the file. -/
inductive HandlerName where
  | handleExistenceCheckSign
  | handleReadSign
  | handleExistenceCheckAccount
  | handleReadAccount
  | handleWriteAccount
  | handleExistenceCheck
  | handleRead
  | handleWrite
  | handleDelete
  deriving DecidableEq, Repr

/-- One call of a handler: which handler, and the request and fields it is given. -/
structure Call where
  handler : HandlerName
  req : Request
  data : FieldData

/-- The gateway after the call, whatever the call returned. -/
def Call.run (lib : Library) (c : Call) (s : Storage) : Storage :=
  match c.handler with
  | HandlerName.handleExistenceCheckSign => (handleExistenceCheckSign s c.req c.data).2
  | HandlerName.handleReadSign => (handleReadSign lib s c.req c.data).2
  | HandlerName.handleExistenceCheckAccount => (handleExistenceCheckAccount s c.req c.data).2
  | HandlerName.handleReadAccount => (handleReadAccount lib s c.req c.data).2
  | HandlerName.handleWriteAccount => (handleWriteAccount s c.req c.data).2
  | HandlerName.handleExistenceCheck => (handleExistenceCheck s c.req c.data).2
  | HandlerName.handleRead => (handleRead lib s c.req c.data).2
  | HandlerName.handleWrite => (handleWrite s c.req c.data).2
  | HandlerName.handleDelete => (handleDelete s c.req c.data).2

/-- The gateway after a sequence of calls, made one after the other from `s`. -/
def runCalls (lib : Library) (s : Storage) (calls : List Call) : Storage :=
  calls.foldl (fun t c => c.run lib t) s

/-- The key a call stores under when it is a call of a write handler. -/
def Call.writeKey (c : Call) : Option String :=
  match c.handler with
  | HandlerName.handleWriteAccount => some (c.req.ClientToken ++ "/" ++ c.data.Get "accountId")
  | HandlerName.handleWrite => some (c.req.ClientToken ++ "/" ++ c.data.Get "path")
  | _ => none

/-! ## The inputs of the scenarios -/

/-- A library for the scenarios: its readers decompress nothing, and its JSON error is the
one `encoding/json` reports for the text `not json`. -/
def scenarioLibrary : Library :=
  { decompress := fun _ _ => .error "unexpected EOF",
    jsonError := fun _ => "invalid character 'o' in literal null (expecting 'u')" }

/-- The request of the scenarios: a call under `token` on the pattern `path`. -/
def scenarioRequest (token path : String) : Request :=
  { ClientToken := token, MountPoint := "mock/", Path := path,
    Data := [("accountId", Value.str "acct-1")] }

/-- The fields of the scenarios: `accountId` and `path` are `acct-1`, `message` is `hello`. -/
def scenarioData : FieldData :=
  { Raw := [("accountId", "acct-1"), ("path", "acct-1"), ("message", "hello")] }

/-- The gateway after `acct-1` was written under the token `tok-A`. -/
def scenarioStorage : Storage :=
  (handleWriteAccount Storage.empty (scenarioRequest "tok-A" "account") scenarioData).2

/-- A gateway that holds nothing and answers every call with an error. -/
def failingStorage : Storage :=
  { entries := fun _ => none, getErr := fun _ => some "storage unavailable",
    putErr := fun _ => some "storage unavailable",
    deleteErr := fun _ => some "storage unavailable", calls := [] }

/-- A gateway that holds, under `tok-A/acct-1`, a payload that is not JSON. -/
def corruptStorage : Storage :=
  { entries := fun k =>
      if k = "tok-A/acct-1" then
        some { Key := "tok-A/acct-1", Value := some "not json".data, SealWrap := false }
      else none,
    getErr := fun _ => none, putErr := fun _ => none, deleteErr := fun _ => none,
    calls := [] }

/-- A library whose readers decompress every compressed payload to the empty JSON object. -/
def unpackingLibrary : Library :=
  { decompress := fun _ _ => .ok ['{', '}'],
    jsonError := fun _ => "unexpected end of JSON input" }

/-- A gateway that holds, under `tok-A/acct-1`, a payload that starts with the LZ4 canary. -/
def compressedStorage : Storage :=
  { entries := fun k =>
      if k = "tok-A/acct-1" then
        some { Key := "tok-A/acct-1", Value := some "4frame".data, SealWrap := false }
      else none,
    getErr := fun _ => none, putErr := fun _ => none, deleteErr := fun _ => none,
    calls := [] }

/-! ## The record codec: what is written can be read back -/

variable (lib : Library)

section CodecLemmas
open Codec

theorem scanString_quote (r : List Char) : scanString (quote :: r) = some ([], r) := by
  rw [scanString.eq_def]; simp

theorem scanString_lit (c : Char) (r : List Char) (h1 : c ≠ quote) (h2 : c ≠ backslash)
    (h3 : ¬ c.toNat < 32) :
    scanString (c :: r) = (scanString r).map (fun p => (StrUnit.lit c :: p.1, p.2)) := by
  rw [scanString.eq_def]
  simp only [h1, h2, h3, if_false]
  cases scanString r <;> rfl

theorem scanString_esc (e x : Char) (r : List Char) (he : e ≠ 'u') (hx : unescape e = some x) :
    scanString (backslash :: e :: r)
      = (scanString r).map (fun p => (StrUnit.lit x :: p.1, p.2)) := by
  rw [scanString.eq_def]
  have hb : backslash ≠ quote := by decide
  simp only [hb, he, hx, if_false, if_true]
  cases scanString r <;> rfl

theorem scanString_u (a b x d : Char) (n : Nat) (r : List Char) (h : getu4 a b x d = some n) :
    scanString (backslash :: 'u' :: a :: b :: x :: d :: r)
      = (scanString r).map (fun p => (StrUnit.u16 n :: p.1, p.2)) := by
  rw [scanString.eq_def]
  have hb : backslash ≠ quote := by decide
  simp only [hb, h, if_false, if_true]
  cases scanString r <;> rfl

theorem hexVal_hexDigit : ∀ n : Fin 16, hexVal (hexDigit n.val) = some n.val := by decide

theorem getu4_escapeU00 (n : Nat) (h : n < 256) :
    getu4 '0' '0' (hexDigit (n / 16)) (hexDigit (n % 16)) = some n := by
  have h1 := hexVal_hexDigit ⟨n / 16, by omega⟩
  have h2 := hexVal_hexDigit ⟨n % 16, by omega⟩
  have h0 : hexVal '0' = some 0 := by decide
  simp only [getu4, h0, h1, h2]
  simp
  omega

theorem combine_lit (c : Char) (us : List StrUnit) :
    combine (StrUnit.lit c :: us) = c :: combine us := by
  rw [combine]

theorem combine_u16 (n : Nat) (us : List StrUnit) (h : isSurrogate n = false) :
    combine (StrUnit.u16 n :: us) = Char.ofNat n :: combine us := by
  rw [combine.eq_def]
  simp [h]

theorem scanString_escapeU00 (c : Char) (h : c.toNat < 256) (tl : List Char) :
    scanString (escapeU00 c ++ tl)
      = (scanString tl).map (fun p => (StrUnit.u16 c.toNat :: p.1, p.2)) := by
  have := scanString_u '0' '0' (hexDigit (c.toNat / 16)) (hexDigit (c.toNat % 16)) c.toNat tl
    (getu4_escapeU00 c.toNat h)
  simpa [escapeU00] using this

theorem scanString_escapeChar (c : Char) (tl : List Char) :
    ∃ u, scanString (escapeChar c ++ tl) = (scanString tl).map (fun p => (u :: p.1, p.2))
      ∧ ∀ us, combine (u :: us) = c :: combine us := by
  unfold escapeChar
  split_ifs with h1 h2 h3 h4 h5 h6 h7 h8 h9
  · exact ⟨StrUnit.lit c, by subst h1; exact scanString_esc _ _ _ (by decide) (by decide),
      combine_lit c⟩
  · exact ⟨StrUnit.lit c, by subst h2; exact scanString_esc _ _ _ (by decide) (by decide),
      combine_lit c⟩
  · exact ⟨StrUnit.lit c, by subst h3; exact scanString_esc _ _ _ (by decide) (by decide),
      combine_lit c⟩
  · exact ⟨StrUnit.lit c, by subst h4; exact scanString_esc _ _ _ (by decide) (by decide),
      combine_lit c⟩
  · exact ⟨StrUnit.lit c, by subst h5; exact scanString_esc _ _ _ (by decide) (by decide),
      combine_lit c⟩
  · refine ⟨StrUnit.u16 c.toNat, scanString_escapeU00 c (by omega) tl, fun us => ?_⟩
    rw [combine_u16 _ _ (by simp [isSurrogate]; omega), Char.ofNat_toNat]
  · refine ⟨StrUnit.u16 c.toNat, scanString_escapeU00 c ?_ tl, fun us => ?_⟩
    · rcases h7 with h | h | h <;> subst h <;> decide
    · rw [combine_u16 _ _ ?_, Char.ofNat_toNat]
      rcases h7 with h | h | h <;> subst h <;> decide
  · refine ⟨StrUnit.u16 0x2028, ?_, fun us => ?_⟩
    · exact scanString_u _ _ _ _ _ _ (by decide)
    · rw [combine_u16 _ _ (by decide), h8]
  · refine ⟨StrUnit.u16 0x2029, ?_, fun us => ?_⟩
    · exact scanString_u _ _ _ _ _ _ (by decide)
    · rw [combine_u16 _ _ (by decide), h9]
  · exact ⟨StrUnit.lit c, scanString_lit c tl h1 h2 h6, combine_lit c⟩

theorem scanString_escapeBody (s rest : List Char) :
    ∃ us, scanString (escapeBody s ++ quote :: rest) = some (us, rest) ∧ combine us = s := by
  induction s with
  | nil => exact ⟨[], by simpa [escapeBody] using scanString_quote rest, by rw [combine]⟩
  | cons c s ih =>
    obtain ⟨us, hus, hc⟩ := ih
    obtain ⟨u, hu, hcomb⟩ := scanString_escapeChar c (escapeBody s ++ quote :: rest)
    refine ⟨u :: us, ?_, by rw [hcomb, hc]⟩
    simp only [escapeBody, List.append_assoc]
    rw [hu, hus]
    rfl

theorem skipSpace_cons (c : Char) (cs : List Char) (h : isSpace c = false) :
    skipSpace (c :: cs) = c :: cs := by
  rw [skipSpace]; simp [h]

theorem scanString_encodeString (s : String) (rest : List Char) :
    ∃ us, scanString (escapeBody s.data ++ quote :: rest) = some (us, rest)
      ∧ combine us = s.data :=
  scanString_escapeBody s.data rest

theorem encodeString_append (s : String) (rest : List Char) :
    encodeString s ++ rest = quote :: (escapeBody s.data ++ quote :: rest) := by
  simp [encodeString]

theorem parseValue_encodeString (fuel : Nat) (s : String) (rest : List Char) :
    parseValue (fuel + 1) (encodeString s ++ rest) = some (JValue.str s.data, rest) := by
  obtain ⟨us, hus, hc⟩ := scanString_escapeBody s.data rest
  rw [encodeString_append, parseValue, skipSpace_cons _ _ (by decide)]
  have h1 : quote ≠ '{' := by decide
  have h2 : quote ≠ '[' := by decide
  simp only [h1, h2, if_false, if_true, hus, hc]

/-- One member `"key":"value"` followed by a closing brace. -/
theorem parseMembers_last (fuel : Nat) (k v : String) (rest : List Char) :
    parseMembers (fuel + 2) (encodeString k ++ ':' :: (encodeString v ++ '}' :: rest))
      = some ([(k.data, JValue.str v.data)], rest) := by
  obtain ⟨us, hus, hc⟩ := scanString_escapeBody k.data
    (':' :: (encodeString v ++ '}' :: rest))
  rw [encodeString_append, parseMembers, skipSpace_cons _ _ (by decide)]
  simp only [if_true, hus, hc]
  rw [skipSpace_cons _ _ (by decide)]
  simp only [if_true, parseValue_encodeString]
  rw [skipSpace_cons _ _ (by decide)]
  simp

/-- One member `"key":"value"` followed by a comma and more members. -/
theorem parseMembers_more (fuel : Nat) (k v : String) (rest : List Char) :
    parseMembers (fuel + 2) (encodeString k ++ ':' :: (encodeString v ++ ',' :: rest))
      = (parseMembers (fuel + 1) rest).map
          (fun p => ((k.data, JValue.str v.data) :: p.1, p.2)) := by
  obtain ⟨us, hus, hc⟩ := scanString_escapeBody k.data
    (':' :: (encodeString v ++ ',' :: rest))
  rw [encodeString_append, parseMembers, skipSpace_cons _ _ (by decide)]
  simp only [if_true, hus, hc]
  rw [skipSpace_cons _ _ (by decide)]
  simp only [if_true, parseValue_encodeString]
  rw [skipSpace_cons _ _ (by decide)]
  have h1 : (',' : Char) ≠ '}' := by decide
  simp only [h1, if_false, if_true]
  cases parseMembers (fuel + 1) rest <;> rfl

theorem parseValue_encodeAccount (fuel : Nat) (a : Account) (rest : List Char) :
    parseValue (fuel + 5) (encodeAccount a ++ rest)
      = some (JValue.obj [("AccountId".data, JValue.str a.AccountId.data),
          ("PublicKey".data, JValue.str a.PublicKey.data),
          ("PrivateKey".data, JValue.str a.PrivateKey.data)], rest) := by
  have e : encodeAccount a ++ rest
      = '{' :: (encodeString "AccountId" ++ ':' :: (encodeString a.AccountId ++ ',' ::
          (encodeString "PublicKey" ++ ':' :: (encodeString a.PublicKey ++ ',' ::
          (encodeString "PrivateKey" ++ ':' :: (encodeString a.PrivateKey ++ '}' :: rest)))))) := by
    simp [encodeAccount]
  rw [e, parseValue, skipSpace_cons _ _ (by decide)]
  simp only [if_true]
  rw [encodeString_append "AccountId", skipSpace_cons _ _ (by decide)]
  have h1 : quote ≠ '}' := by decide
  simp only [h1, if_false]
  rw [← encodeString_append "AccountId", parseMembers_more, parseMembers_more, parseMembers_last]
  rfl

theorem length_encodeAccount (a : Account) : 4 ≤ (encodeAccount a).length := by
  simp [encodeAccount, encodeString]
  omega

theorem toAccount_fields (x y z : String) :
    toAccount ⟨"", "", ""⟩ (JValue.obj [("AccountId".data, JValue.str x.data),
          ("PublicKey".data, JValue.str y.data),
          ("PrivateKey".data, JValue.str z.data)]) = some ⟨x, y, z⟩ := by
  have h1 : sameField "AccountId".data "AccountId" = true := by decide
  have h2 : sameField "PublicKey".data "AccountId" = false := by decide
  have h3 : sameField "PublicKey".data "PublicKey" = true := by decide
  have h4 : sameField "PrivateKey".data "AccountId" = false := by decide
  have h5 : sameField "PrivateKey".data "PublicKey" = false := by decide
  have h6 : sameField "PrivateKey".data "PrivateKey" = true := by decide
  simp [toAccount, setFields, setField, assignString, h1, h2, h3, h4, h5, h6]

theorem parseJSON_encodeAccount (a : Account) :
    parseJSON (encodeAccount a)
      = some (JValue.obj [("AccountId".data, JValue.str a.AccountId.data),
          ("PublicKey".data, JValue.str a.PublicKey.data),
          ("PrivateKey".data, JValue.str a.PrivateKey.data)]) := by
  have hl := length_encodeAccount a
  obtain ⟨k, hk⟩ : ∃ k, (encodeAccount a).length + 1 = k + 5 := ⟨(encodeAccount a).length - 4, by omega⟩
  have := parseValue_encodeAccount k a []
  rw [List.append_nil] at this
  rw [parseJSON, hk, this]

theorem DecodeJSON_encodeAccount (a : Account) :
    DecodeJSON lib (some (encodeAccount a)) = .ok a := by
  have hp := parseJSON_encodeAccount a
  have ht := toAccount_fields a.AccountId a.PublicKey a.PrivateKey
  have hc : isCanary '{' = false := by decide
  have e : encodeAccount a = '{' :: (encodeAccount a).tail := rfl
  rw [e] at hp ⊢
  unfold DecodeJSON
  simp only [hc, Bool.false_eq_true, if_false]
  unfold DecodeJSONFromReader
  rw [hp]
  simp only [ht]

end CodecLemmas

/-! ## Facts about the resolved key and the handlers -/

theorem key_ne_of_token_ne (c1 c2 k : String) (h : c1 ≠ c2) :
    c1 ++ "/" ++ k ≠ c2 ++ "/" ++ k := by
  intro e
  apply h
  have e2 := congrArg String.data e
  simp only [String.data_append] at e2
  have e3 := List.append_cancel_right e2
  have e4 := List.append_cancel_right e3
  exact String.ext e4

/-- What a read handler returns depends on the gateway only through the answer of `Get` at
the key it looks up. -/
theorem handleReadAccount_congr (s t : Storage) (req : Request) (data : FieldData)
    (he : t.entries (req.ClientToken ++ "/" ++ data.Get "accountId")
      = s.entries (req.ClientToken ++ "/" ++ data.Get "accountId"))
    (hg : t.getErr = s.getErr) :
    (handleReadAccount lib t req data).1 = (handleReadAccount lib s req data).1 := by
  unfold handleReadAccount Storage.Get
  simp only [he, hg]
  split_ifs
  · rfl
  · cases s.getErr (req.ClientToken ++ "/" ++ data.Get "accountId") with
    | some e => rfl
    | none =>
      simp only
      cases s.entries (req.ClientToken ++ "/" ++ data.Get "accountId") with
      | none => rfl
      | some entry =>
        simp only
        cases entry.Value with
        | none => rfl
        | some v => simp only; cases DecodeJSON lib (some v) <;> rfl

theorem handleReadSign_congr (s t : Storage) (req : Request) (data : FieldData)
    (he : t.entries (req.ClientToken ++ "/" ++ data.Get "accountId")
      = s.entries (req.ClientToken ++ "/" ++ data.Get "accountId"))
    (hg : t.getErr = s.getErr) :
    (handleReadSign lib t req data).1 = (handleReadSign lib s req data).1 := by
  unfold handleReadSign Storage.Get
  simp only [he, hg]
  split_ifs
  · rfl
  · cases s.getErr (req.ClientToken ++ "/" ++ data.Get "accountId") with
    | some e => rfl
    | none =>
      simp only
      cases s.entries (req.ClientToken ++ "/" ++ data.Get "accountId") with
      | none => rfl
      | some entry =>
        simp only
        cases entry.Value with
        | none => rfl
        | some v => simp only; cases DecodeJSON lib (some v) <;> rfl

theorem handleRead_congr (s t : Storage) (req : Request) (data : FieldData)
    (he : t.entries (req.ClientToken ++ "/" ++ data.Get "path")
      = s.entries (req.ClientToken ++ "/" ++ data.Get "path"))
    (hg : t.getErr = s.getErr) :
    (handleRead lib t req data).1 = (handleRead lib s req data).1 := by
  unfold handleRead Storage.Get
  simp only [he, hg]
  split_ifs
  · rfl
  · cases s.getErr (req.ClientToken ++ "/" ++ data.Get "path") with
    | some e => rfl
    | none =>
      simp only
      cases s.entries (req.ClientToken ++ "/" ++ data.Get "path") with
      | none => rfl
      | some entry =>
        simp only
        cases entry.Value with
        | none => rfl
        | some v => simp only; cases DecodeJSON lib (some v) <;> rfl

/-- A write leaves the answers of `Get` alone and changes no entry at another key. -/
theorem handleWriteAccount_frame (s : Storage) (req : Request) (data : FieldData) :
    (handleWriteAccount s req data).2.getErr = s.getErr
    ∧ ∀ k, k ≠ req.ClientToken ++ "/" ++ data.Get "accountId" →
        (handleWriteAccount s req data).2.entries k = s.entries k := by
  unfold handleWriteAccount jsonMarshal Storage.Put Storage.record
  split_ifs
  · exact ⟨rfl, fun _ _ => rfl⟩
  · exact ⟨rfl, fun _ _ => rfl⟩
  · simp only
    cases s.putErr (req.ClientToken ++ "/" ++ data.Get "accountId") with
    | some e => exact ⟨rfl, fun _ _ => rfl⟩
    | none => exact ⟨rfl, fun k hk => by simp [hk]⟩

theorem handleWrite_frame (s : Storage) (req : Request) (data : FieldData) :
    (handleWrite s req data).2.getErr = s.getErr
    ∧ ∀ k, k ≠ req.ClientToken ++ "/" ++ data.Get "path" →
        (handleWrite s req data).2.entries k = s.entries k := by
  unfold handleWrite jsonMarshal Storage.Put Storage.record
  split_ifs
  · exact ⟨rfl, fun _ _ => rfl⟩
  · exact ⟨rfl, fun _ _ => rfl⟩
  · simp only
    cases s.putErr (req.ClientToken ++ "/" ++ data.Get "path") with
    | some e => exact ⟨rfl, fun _ _ => rfl⟩
    | none => exact ⟨rfl, fun k hk => by simp [hk]⟩


theorem handleWriteAccount_calls (s : Storage) (req : Request) (data : FieldData)
    (h : req.ClientToken ≠ "") :
    (handleWriteAccount s req data).2.calls = s.calls ++
      (if req.Data.length = 0 then []
        else [StorageCall.put (req.ClientToken ++ "/" ++ data.Get "accountId")]) := by
  unfold handleWriteAccount jsonMarshal Storage.Put Storage.record
  simp only [h, if_false]
  split_ifs
  · simp
  · cases s.putErr (req.ClientToken ++ "/" ++ data.Get "accountId") <;> rfl

theorem handleWrite_calls (s : Storage) (req : Request) (data : FieldData)
    (h : req.ClientToken ≠ "") :
    (handleWrite s req data).2.calls = s.calls ++
      (if req.Data.length = 0 then []
        else [StorageCall.put (req.ClientToken ++ "/" ++ data.Get "path")]) := by
  unfold handleWrite jsonMarshal Storage.Put Storage.record
  simp only [h, if_false]
  split_ifs
  · simp
  · cases s.putErr (req.ClientToken ++ "/" ++ data.Get "path") <;> rfl

theorem handleReadAccount_calls (s : Storage) (req : Request) (data : FieldData)
    (h : req.ClientToken ≠ "") :
    (handleReadAccount lib s req data).2.calls
      = s.calls ++ [StorageCall.get (req.ClientToken ++ "/" ++ data.Get "accountId")] := by
  unfold handleReadAccount Storage.Get Storage.record
  simp only [h, if_false]
  cases s.getErr (req.ClientToken ++ "/" ++ data.Get "accountId") with
  | some e => rfl
  | none =>
    simp only
    cases s.entries (req.ClientToken ++ "/" ++ data.Get "accountId") with
    | none => rfl
    | some entry =>
      simp only
      cases entry.Value with
      | none => rfl
      | some v => simp only; cases DecodeJSON lib (some v) <;> rfl

theorem handleReadSign_calls (s : Storage) (req : Request) (data : FieldData)
    (h : req.ClientToken ≠ "") :
    (handleReadSign lib s req data).2.calls
      = s.calls ++ [StorageCall.get (req.ClientToken ++ "/" ++ data.Get "accountId")] := by
  unfold handleReadSign Storage.Get Storage.record
  simp only [h, if_false]
  cases s.getErr (req.ClientToken ++ "/" ++ data.Get "accountId") with
  | some e => rfl
  | none =>
    simp only
    cases s.entries (req.ClientToken ++ "/" ++ data.Get "accountId") with
    | none => rfl
    | some entry =>
      simp only
      cases entry.Value with
      | none => rfl
      | some v => simp only; cases DecodeJSON lib (some v) <;> rfl

theorem handleRead_calls (s : Storage) (req : Request) (data : FieldData)
    (h : req.ClientToken ≠ "") :
    (handleRead lib s req data).2.calls
      = s.calls ++ [StorageCall.get (req.ClientToken ++ "/" ++ data.Get "path")] := by
  unfold handleRead Storage.Get Storage.record
  simp only [h, if_false]
  cases s.getErr (req.ClientToken ++ "/" ++ data.Get "path") with
  | some e => rfl
  | none =>
    simp only
    cases s.entries (req.ClientToken ++ "/" ++ data.Get "path") with
    | none => rfl
    | some entry =>
      simp only
      cases entry.Value with
      | none => rfl
      | some v => simp only; cases DecodeJSON lib (some v) <;> rfl

section HandlerLemmas
open Codec


/-- A write that passes both guards and whose `Put` succeeds: the response, and the stored
entry. -/
theorem handleWriteAccount_ok (s : Storage) (req : Request) (data : FieldData)
    (ht : req.ClientToken ≠ "") (hd : req.Data.length ≠ 0)
    (hp : s.putErr (req.ClientToken ++ "/" ++ data.Get "accountId") = none) :
    (handleWriteAccount s req data).1
        = Outcome.returned (some { Data := [("accountId", Value.str (data.Get "accountId")),
            ("status", Value.bool true), ("txHash", Value.str "0x9876")] }) none
    ∧ (handleWriteAccount s req data).2.entries (req.ClientToken ++ "/" ++ data.Get "accountId")
        = some { Key := req.ClientToken ++ "/" ++ data.Get "accountId",
                 Value := some (encodeAccount ⟨data.Get "accountId", "0x1234", "0x9876"⟩),
                 SealWrap := false }
    ∧ (handleWriteAccount s req data).2.getErr = s.getErr := by
  unfold handleWriteAccount jsonMarshal Storage.Put Storage.record
  simp [ht, hd, hp]

theorem handleWrite_ok (s : Storage) (req : Request) (data : FieldData)
    (ht : req.ClientToken ≠ "") (hd : req.Data.length ≠ 0)
    (hp : s.putErr (req.ClientToken ++ "/" ++ data.Get "path") = none) :
    (handleWrite s req data).1
        = Outcome.returned (some { Data := [("accountId", Value.str (data.Get "accountId")),
            ("status", Value.bool true), ("txHash", Value.str "0x9876")] }) none
    ∧ (handleWrite s req data).2.entries (req.ClientToken ++ "/" ++ data.Get "path")
        = some { Key := req.ClientToken ++ "/" ++ data.Get "path",
                 Value := some (encodeAccount ⟨data.Get "accountId", "0x1234", "0x9876"⟩),
                 SealWrap := false }
    ∧ (handleWrite s req data).2.getErr = s.getErr := by
  unfold handleWrite jsonMarshal Storage.Put Storage.record
  simp [ht, hd, hp]

/-- A read whose `Get` succeeds on an entry with a payload that decodes. -/
theorem handleReadAccount_found (s : Storage) (req : Request) (data : FieldData)
    (entry : StorageEntry) (payload : List Char) (acct : Account)
    (ht : req.ClientToken ≠ "")
    (hg : s.getErr (req.ClientToken ++ "/" ++ data.Get "accountId") = none)
    (he : s.entries (req.ClientToken ++ "/" ++ data.Get "accountId") = some entry)
    (hv : entry.Value = some payload) (hdec : DecodeJSON lib (some payload) = .ok acct) :
    (handleReadAccount lib s req data).1
      = Outcome.returned (some { Data := [("signatureEncode64",
          Value.str (acct.PrivateKey ++ "-" ++ acct.PublicKey))] }) none := by
  unfold handleReadAccount Storage.Get
  simp [ht, hg, he, hv, hdec]

theorem handleReadSign_found (s : Storage) (req : Request) (data : FieldData)
    (entry : StorageEntry) (payload : List Char) (acct : Account)
    (ht : req.ClientToken ≠ "")
    (hg : s.getErr (req.ClientToken ++ "/" ++ data.Get "accountId") = none)
    (he : s.entries (req.ClientToken ++ "/" ++ data.Get "accountId") = some entry)
    (hv : entry.Value = some payload) (hdec : DecodeJSON lib (some payload) = .ok acct) :
    (handleReadSign lib s req data).1
      = Outcome.returned (some { Data := [("signatureEncode64",
          Value.str (data.Get "message" ++ "-" ++ acct.PrivateKey ++ "-" ++ acct.PublicKey))] })
          none := by
  unfold handleReadSign Storage.Get
  simp [ht, hg, he, hv, hdec]

theorem handleRead_found (s : Storage) (req : Request) (data : FieldData)
    (entry : StorageEntry) (payload : List Char) (acct : Account)
    (ht : req.ClientToken ≠ "")
    (hg : s.getErr (req.ClientToken ++ "/" ++ data.Get "path") = none)
    (he : s.entries (req.ClientToken ++ "/" ++ data.Get "path") = some entry)
    (hv : entry.Value = some payload) (hdec : DecodeJSON lib (some payload) = .ok acct) :
    (handleRead lib s req data).1
      = Outcome.returned (some { Data := [("signatureEncode64",
          Value.str (acct.PrivateKey ++ "-" ++ acct.PublicKey))] }) none := by
  unfold handleRead Storage.Get
  simp [ht, hg, he, hv, hdec]

/-- A write that returns a response passed both guards and its `Put` did not fail. -/
theorem handleWriteAccount_success (s : Storage) (req : Request) (data : FieldData)
    (resp : Response)
    (h : (handleWriteAccount s req data).1 = Outcome.returned (some resp) none) :
    req.ClientToken ≠ "" ∧ req.Data.length ≠ 0
      ∧ s.putErr (req.ClientToken ++ "/" ++ data.Get "accountId") = none := by
  unfold handleWriteAccount jsonMarshal Storage.Put at h
  split_ifs at h with h1 h2
  · simp at h
  · simp at h
  · refine ⟨h1, h2, ?_⟩
    cases hp : s.putErr (req.ClientToken ++ "/" ++ data.Get "accountId") with
    | none => rfl
    | some e => simp [hp] at h

theorem handleWrite_success (s : Storage) (req : Request) (data : FieldData)
    (resp : Response)
    (h : (handleWrite s req data).1 = Outcome.returned (some resp) none) :
    req.ClientToken ≠ "" ∧ req.Data.length ≠ 0
      ∧ s.putErr (req.ClientToken ++ "/" ++ data.Get "path") = none := by
  unfold handleWrite jsonMarshal Storage.Put at h
  split_ifs at h with h1 h2
  · simp at h
  · simp at h
  · refine ⟨h1, h2, ?_⟩
    cases hp : s.putErr (req.ClientToken ++ "/" ++ data.Get "path") with
    | none => rfl
    | some e => simp [hp] at h

/-- Whenever nothing is stored under the resolved key and the gateway answers the `Get`, the
three read handlers stop with the nil-pointer panic. -/
theorem read_absent_panics (s : Storage) (req : Request) (data : FieldData)
    (ht : req.ClientToken ≠ "") :
    (s.getErr (req.ClientToken ++ "/" ++ data.Get "accountId") = none →
      s.entries (req.ClientToken ++ "/" ++ data.Get "accountId") = none →
      (handleReadAccount lib s req data).1 = Outcome.panicked nilDereference
      ∧ (handleReadSign lib s req data).1 = Outcome.panicked nilDereference)
    ∧ (s.getErr (req.ClientToken ++ "/" ++ data.Get "path") = none →
      s.entries (req.ClientToken ++ "/" ++ data.Get "path") = none →
      (handleRead lib s req data).1 = Outcome.panicked nilDereference) := by
  refine ⟨fun hg he => ?_, fun hg he => ?_⟩
  · simp [handleReadAccount, handleReadSign, Storage.Get, ht, hg, he]
  · simp [handleRead, Storage.Get, ht, hg, he]

/-! ## What each handler does to the stored entries -/

/-- A gateway call that is journalled changes nothing else. -/
theorem Storage.Get_snd (s : Storage) (key : String) :
    (s.Get key).2 = s.record (StorageCall.get key) := by
  unfold Storage.Get
  cases s.getErr key <;> rfl

theorem handleReadAccount_storage (s : Storage) (req : Request) (data : FieldData) :
    (handleReadAccount lib s req data).2 = s
    ∨ (handleReadAccount lib s req data).2
        = s.record (StorageCall.get (req.ClientToken ++ "/" ++ data.Get "accountId")) := by
  by_cases ht : req.ClientToken = ""
  · left
    simp [handleReadAccount, ht]
  · right
    unfold handleReadAccount Storage.Get
    simp only [ht, if_false]
    cases s.getErr (req.ClientToken ++ "/" ++ data.Get "accountId") with
    | some e => rfl
    | none =>
      simp only
      cases s.entries (req.ClientToken ++ "/" ++ data.Get "accountId") with
      | none => rfl
      | some entry =>
        simp only
        cases entry.Value with
        | none => rfl
        | some v => simp only; cases DecodeJSON lib (some v) <;> rfl

theorem handleReadSign_storage (s : Storage) (req : Request) (data : FieldData) :
    (handleReadSign lib s req data).2 = s
    ∨ (handleReadSign lib s req data).2
        = s.record (StorageCall.get (req.ClientToken ++ "/" ++ data.Get "accountId")) := by
  by_cases ht : req.ClientToken = ""
  · left
    simp [handleReadSign, ht]
  · right
    unfold handleReadSign Storage.Get
    simp only [ht, if_false]
    cases s.getErr (req.ClientToken ++ "/" ++ data.Get "accountId") with
    | some e => rfl
    | none =>
      simp only
      cases s.entries (req.ClientToken ++ "/" ++ data.Get "accountId") with
      | none => rfl
      | some entry =>
        simp only
        cases entry.Value with
        | none => rfl
        | some v => simp only; cases DecodeJSON lib (some v) <;> rfl

theorem handleRead_storage (s : Storage) (req : Request) (data : FieldData) :
    (handleRead lib s req data).2 = s
    ∨ (handleRead lib s req data).2
        = s.record (StorageCall.get (req.ClientToken ++ "/" ++ data.Get "path")) := by
  by_cases ht : req.ClientToken = ""
  · left
    simp [handleRead, ht]
  · right
    unfold handleRead Storage.Get
    simp only [ht, if_false]
    cases s.getErr (req.ClientToken ++ "/" ++ data.Get "path") with
    | some e => rfl
    | none =>
      simp only
      cases s.entries (req.ClientToken ++ "/" ++ data.Get "path") with
      | none => rfl
      | some entry =>
        simp only
        cases entry.Value with
        | none => rfl
        | some v => simp only; cases DecodeJSON lib (some v) <;> rfl

theorem existenceCheck_storage (s : Storage) (req : Request) (data : FieldData) :
    (handleExistenceCheckAccount s req data).2 = s.record (StorageCall.get req.Path)
    ∧ (handleExistenceCheckSign s req data).2 = s.record (StorageCall.get req.Path)
    ∧ (handleExistenceCheck s req data).2 = s.record (StorageCall.get req.Path) := by
  unfold handleExistenceCheckAccount handleExistenceCheckSign handleExistenceCheck Storage.Get
  cases s.getErr req.Path <;> exact ⟨rfl, rfl, rfl⟩

/-- A write either leaves the entries, or was made under a non-empty token with a non-empty
payload and put its entry under the resolved key. In both cases the failure answers of the
gateway are as before. -/
theorem handleWriteAccount_entries (s : Storage) (req : Request) (data : FieldData) :
    ((handleWriteAccount s req data).2.entries = s.entries
      ∨ (req.ClientToken ≠ "" ∧ req.Data ≠ []
        ∧ s.putErr (req.ClientToken ++ "/" ++ data.Get "accountId") = none
        ∧ (handleWriteAccount s req data).2.entries
          = fun k => if k = req.ClientToken ++ "/" ++ data.Get "accountId"
              then some (writtenEntry (req.ClientToken ++ "/" ++ data.Get "accountId")
                (data.Get "accountId"))
              else s.entries k))
    ∧ (handleWriteAccount s req data).2.getErr = s.getErr
    ∧ (handleWriteAccount s req data).2.putErr = s.putErr
    ∧ (handleWriteAccount s req data).2.deleteErr = s.deleteErr := by
  unfold handleWriteAccount jsonMarshal Storage.Put Storage.record
  split_ifs with h1 h2
  · exact ⟨Or.inl rfl, rfl, rfl, rfl⟩
  · exact ⟨Or.inl rfl, rfl, rfl, rfl⟩
  · simp only
    cases hp : s.putErr (req.ClientToken ++ "/" ++ data.Get "accountId") with
    | some e => exact ⟨Or.inl rfl, rfl, rfl, rfl⟩
    | none =>
      exact ⟨Or.inr ⟨h1, by intro h; simp [h] at h2, rfl, rfl⟩, rfl, rfl, rfl⟩

theorem handleWrite_entries (s : Storage) (req : Request) (data : FieldData) :
    ((handleWrite s req data).2.entries = s.entries
      ∨ (req.ClientToken ≠ "" ∧ req.Data ≠ []
        ∧ s.putErr (req.ClientToken ++ "/" ++ data.Get "path") = none
        ∧ (handleWrite s req data).2.entries
          = fun k => if k = req.ClientToken ++ "/" ++ data.Get "path"
              then some (writtenEntry (req.ClientToken ++ "/" ++ data.Get "path")
                (data.Get "accountId"))
              else s.entries k))
    ∧ (handleWrite s req data).2.getErr = s.getErr
    ∧ (handleWrite s req data).2.putErr = s.putErr
    ∧ (handleWrite s req data).2.deleteErr = s.deleteErr := by
  unfold handleWrite jsonMarshal Storage.Put Storage.record
  split_ifs with h1 h2
  · exact ⟨Or.inl rfl, rfl, rfl, rfl⟩
  · exact ⟨Or.inl rfl, rfl, rfl, rfl⟩
  · simp only
    cases hp : s.putErr (req.ClientToken ++ "/" ++ data.Get "path") with
    | some e => exact ⟨Or.inl rfl, rfl, rfl, rfl⟩
    | none =>
      exact ⟨Or.inr ⟨h1, by intro h; simp [h] at h2, rfl, rfl⟩, rfl, rfl, rfl⟩

theorem handleDelete_entries (s : Storage) (req : Request) (data : FieldData) :
    ((handleDelete s req data).2.entries = s.entries
      ∨ (req.ClientToken ≠ ""
        ∧ s.deleteErr (req.ClientToken ++ "/" ++ data.Get "path") = none
        ∧ (handleDelete s req data).2.entries
          = fun k => if k = req.ClientToken ++ "/" ++ data.Get "path" then none
              else s.entries k))
    ∧ (handleDelete s req data).2.getErr = s.getErr
    ∧ (handleDelete s req data).2.putErr = s.putErr
    ∧ (handleDelete s req data).2.deleteErr = s.deleteErr := by
  unfold handleDelete Storage.Delete Storage.record
  split_ifs with h1
  · exact ⟨Or.inl rfl, rfl, rfl, rfl⟩
  · simp only
    cases hp : s.deleteErr (req.ClientToken ++ "/" ++ data.Get "path") with
    | some e => exact ⟨Or.inl rfl, rfl, rfl, rfl⟩
    | none => exact ⟨Or.inr ⟨h1, rfl, rfl⟩, rfl, rfl, rfl⟩

/-- A read that finds a payload that does not decode. -/
theorem handleReadAccount_corrupt (s : Storage) (req : Request) (data : FieldData)
    (entry : StorageEntry) (payload : List Char) (err : Error)
    (ht : req.ClientToken ≠ "")
    (hg : s.getErr (req.ClientToken ++ "/" ++ data.Get "accountId") = none)
    (he : s.entries (req.ClientToken ++ "/" ++ data.Get "accountId") = some entry)
    (hv : entry.Value = some payload) (hdec : DecodeJSON lib (some payload) = .error err) :
    handleReadAccount lib s req data
      = (Outcome.returned none (some ("json decoding failed: " ++ err)),
          s.record (StorageCall.get (req.ClientToken ++ "/" ++ data.Get "accountId"))) := by
  unfold handleReadAccount Storage.Get
  simp [ht, hg, he, hv, hdec]

theorem handleReadSign_corrupt (s : Storage) (req : Request) (data : FieldData)
    (entry : StorageEntry) (payload : List Char) (err : Error)
    (ht : req.ClientToken ≠ "")
    (hg : s.getErr (req.ClientToken ++ "/" ++ data.Get "accountId") = none)
    (he : s.entries (req.ClientToken ++ "/" ++ data.Get "accountId") = some entry)
    (hv : entry.Value = some payload) (hdec : DecodeJSON lib (some payload) = .error err) :
    handleReadSign lib s req data
      = (Outcome.returned none (some ("json decoding failed: " ++ err)),
          s.record (StorageCall.get (req.ClientToken ++ "/" ++ data.Get "accountId"))) := by
  unfold handleReadSign Storage.Get
  simp [ht, hg, he, hv, hdec]

theorem handleRead_corrupt (s : Storage) (req : Request) (data : FieldData)
    (entry : StorageEntry) (payload : List Char) (err : Error)
    (ht : req.ClientToken ≠ "")
    (hg : s.getErr (req.ClientToken ++ "/" ++ data.Get "path") = none)
    (he : s.entries (req.ClientToken ++ "/" ++ data.Get "path") = some entry)
    (hv : entry.Value = some payload) (hdec : DecodeJSON lib (some payload) = .error err) :
    handleRead lib s req data
      = (Outcome.returned none (some ("json decoding failed: " ++ err)),
          s.record (StorageCall.get (req.ClientToken ++ "/" ++ data.Get "path"))) := by
  unfold handleRead Storage.Get
  simp [ht, hg, he, hv, hdec]

/-! ## The invariant of the stored entries -/

/-- Every stored entry was put by a write call of the sequence, made under a non-empty
token, under the key that call resolves. -/
theorem Call.run_invariant (pre : List Call) (c : Call) (s : Storage)
    (h : ∀ k entry, s.entries k = some entry →
      ∃ w ∈ pre, w.writeKey = some k ∧ w.req.ClientToken ≠ ""
        ∧ entry = writtenEntry k (w.data.Get "accountId")) :
    ∀ k entry, (c.run lib s).entries k = some entry →
      ∃ w ∈ pre ++ [c], w.writeKey = some k ∧ w.req.ClientToken ≠ ""
        ∧ entry = writtenEntry k (w.data.Get "accountId") := by
  have keep : ∀ k entry, s.entries k = some entry →
      ∃ w ∈ pre ++ [c], w.writeKey = some k ∧ w.req.ClientToken ≠ ""
        ∧ entry = writtenEntry k (w.data.Get "accountId") := by
    intro k entry hk
    obtain ⟨w, hw, rest⟩ := h k entry hk
    exact ⟨w, List.mem_append_left _ hw, rest⟩
  have same : (c.run lib s).entries = s.entries → ∀ k entry, (c.run lib s).entries k = some entry →
      ∃ w ∈ pre ++ [c], w.writeKey = some k ∧ w.req.ClientToken ≠ ""
        ∧ entry = writtenEntry k (w.data.Get "accountId") := by
    intro e k entry hk
    rw [e] at hk
    exact keep k entry hk
  obtain ⟨handler, req, data⟩ := c
  cases handler with
  | handleExistenceCheckSign =>
    exact same (by simp [Call.run, (existenceCheck_storage s req data).2.1, Storage.record])
  | handleExistenceCheckAccount =>
    exact same (by simp [Call.run, (existenceCheck_storage s req data).1, Storage.record])
  | handleExistenceCheck =>
    exact same (by simp [Call.run, (existenceCheck_storage s req data).2.2, Storage.record])
  | handleReadSign =>
    exact same (by
      rcases handleReadSign_storage lib s req data with e | e <;>
        simp [Call.run, e, Storage.record])
  | handleReadAccount =>
    exact same (by
      rcases handleReadAccount_storage lib s req data with e | e <;>
        simp [Call.run, e, Storage.record])
  | handleRead =>
    exact same (by
      rcases handleRead_storage lib s req data with e | e <;> simp [Call.run, e, Storage.record])
  | handleWriteAccount =>
    rcases (handleWriteAccount_entries s req data).1 with e | ⟨ht, -, -, e⟩
    · exact same e
    · intro k entry hk
      simp only [Call.run, e] at hk
      by_cases hkk : k = req.ClientToken ++ "/" ++ data.Get "accountId"
      · simp only [hkk, if_true, Option.some.injEq] at hk
        exact ⟨⟨HandlerName.handleWriteAccount, req, data⟩, by simp,
          by simp [Call.writeKey, hkk], ht, by rw [hkk]; exact hk.symm⟩
      · simp only [hkk, if_false] at hk
        exact keep k entry hk
  | handleWrite =>
    rcases (handleWrite_entries s req data).1 with e | ⟨ht, -, -, e⟩
    · exact same e
    · intro k entry hk
      simp only [Call.run, e] at hk
      by_cases hkk : k = req.ClientToken ++ "/" ++ data.Get "path"
      · simp only [hkk, if_true, Option.some.injEq] at hk
        exact ⟨⟨HandlerName.handleWrite, req, data⟩, by simp,
          by simp [Call.writeKey, hkk], ht, by rw [hkk]; exact hk.symm⟩
      · simp only [hkk, if_false] at hk
        exact keep k entry hk
  | handleDelete =>
    rcases (handleDelete_entries s req data).1 with e | ⟨-, -, e⟩
    · exact same e
    · intro k entry hk
      simp only [Call.run, e] at hk
      by_cases hkk : k = req.ClientToken ++ "/" ++ data.Get "path"
      · simp [hkk] at hk
      · simp only [hkk, if_false] at hk
        exact keep k entry hk

theorem runCalls_invariant_from (calls pre : List Call) (s : Storage)
    (h : ∀ k entry, s.entries k = some entry →
      ∃ w ∈ pre, w.writeKey = some k ∧ w.req.ClientToken ≠ ""
        ∧ entry = writtenEntry k (w.data.Get "accountId")) :
    ∀ k entry, (runCalls lib s calls).entries k = some entry →
      ∃ w ∈ pre ++ calls, w.writeKey = some k ∧ w.req.ClientToken ≠ ""
        ∧ entry = writtenEntry k (w.data.Get "accountId") := by
  induction calls generalizing pre s with
  | nil => simpa [runCalls] using h
  | cons c calls ih =>
    have := ih (pre ++ [c]) (c.run lib s) (Call.run_invariant lib pre c s h)
    simpa [runCalls] using this

/-- From a gateway that holds nothing, every stored entry is the one a write call of the
sequence put under its resolved key, under a non-empty token. -/
theorem runCalls_invariant (s0 : Storage) (calls : List Call)
    (h0 : ∀ k, s0.entries k = none) :
    ∀ k entry, (runCalls lib s0 calls).entries k = some entry →
      ∃ w ∈ calls, w.writeKey = some k ∧ w.req.ClientToken ≠ ""
        ∧ entry = writtenEntry k (w.data.Get "accountId") := by
  have := runCalls_invariant_from lib calls [] s0 (by intro k entry hk; simp [h0 k] at hk)
  simpa using this

/-- A key a write call resolves is its token, a slash, and the id field of the call. -/
theorem Call.writeKey_form (w : Call) (k : String) (h : w.writeKey = some k) :
    (w.handler = HandlerName.handleWriteAccount ∨ w.handler = HandlerName.handleWrite)
    ∧ (∃ logicalId, k = w.req.ClientToken ++ "/" ++ logicalId) := by
  obtain ⟨handler, req, data⟩ := w
  cases handler <;> simp [Call.writeKey] at h
  · exact ⟨Or.inl rfl, _, h.symm⟩
  · exact ⟨Or.inr rfl, _, h.symm⟩

theorem slash_mem_key (c k : String) : '/' ∈ (c ++ "/" ++ k).data := by
  simp [String.data_append]

/-- In a list, the first occurrence of a separator that is in neither front part splits the
list in one way only. -/
theorem append_sep_inj (x : Char) :
    ∀ (l1 l2 r1 r2 : List Char), x ∉ l1 → x ∉ l2 →
      l1 ++ x :: r1 = l2 ++ x :: r2 → l1 = l2 ∧ r1 = r2
  | [], [], _, _, _, _, h => ⟨rfl, by simpa using h⟩
  | [], b :: l2, _, _, _, h2, h => by
    simp only [List.nil_append, List.cons_append, List.cons.injEq] at h
    exact absurd (h.1 ▸ List.mem_cons_self _ _) h2
  | a :: l1, [], _, _, h1, _, h => by
    simp only [List.nil_append, List.cons_append, List.cons.injEq] at h
    exact absurd (h.1 ▸ List.mem_cons_self _ _) h1
  | a :: l1, b :: l2, r1, r2, h1, h2, h => by
    simp only [List.cons_append, List.cons.injEq] at h
    have := append_sep_inj x l1 l2 r1 r2 (fun m => h1 (List.mem_cons_of_mem _ m))
      (fun m => h2 (List.mem_cons_of_mem _ m)) h.2
    exact ⟨by rw [h.1, this.1], this.2⟩

theorem key_inj_of_no_slash (c1 c2 k1 k2 : String) (h1 : '/' ∉ c1.data) (h2 : '/' ∉ c2.data)
    (h : c1 ++ "/" ++ k1 = c2 ++ "/" ++ k2) : c1 = c2 ∧ k1 = k2 := by
  have e := congrArg String.data h
  simp only [String.data_append, List.append_assoc] at e
  have := append_sep_inj '/' c1.data c2.data k1.data k2.data h1 h2 (by simpa using e)
  exact ⟨String.ext this.1, String.ext this.2⟩

/-- A write that passes both guards and whose `Put` succeeds, in full. -/
theorem handleWriteAccount_eq (s : Storage) (req : Request) (data : FieldData)
    (ht : req.ClientToken ≠ "") (hd : req.Data.length ≠ 0)
    (hp : s.putErr (req.ClientToken ++ "/" ++ data.Get "accountId") = none) :
    handleWriteAccount s req data
      = (Outcome.returned (some { Data := [("accountId", Value.str (data.Get "accountId")),
            ("status", Value.bool true), ("txHash", Value.str "0x9876")] }) none,
          { s.record (StorageCall.put (req.ClientToken ++ "/" ++ data.Get "accountId")) with
            entries := fun k =>
              if k = req.ClientToken ++ "/" ++ data.Get "accountId" then
                some (writtenEntry (req.ClientToken ++ "/" ++ data.Get "accountId")
                  (data.Get "accountId"))
              else s.entries k }) := by
  unfold handleWriteAccount jsonMarshal Storage.Put
  simp only [ht, hd, hp, if_false]
  rfl

theorem handleWrite_eq (s : Storage) (req : Request) (data : FieldData)
    (ht : req.ClientToken ≠ "") (hd : req.Data.length ≠ 0)
    (hp : s.putErr (req.ClientToken ++ "/" ++ data.Get "path") = none) :
    handleWrite s req data
      = (Outcome.returned (some { Data := [("accountId", Value.str (data.Get "accountId")),
            ("status", Value.bool true), ("txHash", Value.str "0x9876")] }) none,
          { s.record (StorageCall.put (req.ClientToken ++ "/" ++ data.Get "path")) with
            entries := fun k =>
              if k = req.ClientToken ++ "/" ++ data.Get "path" then
                some (writtenEntry (req.ClientToken ++ "/" ++ data.Get "path")
                  (data.Get "accountId"))
              else s.entries k }) := by
  unfold handleWrite jsonMarshal Storage.Put
  simp only [ht, hd, hp, if_false]
  rfl

/-- A payload that starts with a compression canary is decoded from what the library's
reader decompresses it to. -/
theorem DecodeJSON_compressed (c d : Char) (cs ds : List Char) (hc : isCanary c = true)
    (hd : lib.decompress c cs = .ok (d :: ds)) :
    DecodeJSON lib (some (c :: cs)) = DecodeJSONFromReader lib (d :: ds) := by
  simp [DecodeJSON, hc, hd]

/-- A compressed payload that decompresses to the empty object decodes to the zero record:
the read returns the derived value of empty key fields, with no error. -/
theorem handleReadAccount_compressed_empty_object :
    DecodeJSON unpackingLibrary (some "4frame".data) = .ok ⟨"", "", ""⟩
    ∧ (handleReadAccount unpackingLibrary compressedStorage (scenarioRequest "tok-A" "account")
        scenarioData).1
      = Outcome.returned (some { Data := [("signatureEncode64", Value.str "-")] }) none :=
  ⟨rfl, rfl⟩

end HandlerLemmas

section Claims
open Codec

/-! ## C1: tenant isolation -/

/-- C1. Tenant isolation. For every gateway state `s`, non-empty caller tokens `c1 ≠ c2` and
logical id `k`: the key `c1/k` a write resolves differs from the key `c2/k` a read resolves;
`handleWriteAccount` and `handleWrite` under `c1` call the gateway at most once, a `Put` at
`c1/k`; the three read handlers under `c2` call it once, a `Get` at `c2/k`; and each read
under `c2` returns the same outcome on `s` and on the state the write under `c1` leaves. -/
theorem tenant_isolation (s : Storage) (wreq rreq : Request)
    (wdataA wdataP rdataA rdataP : FieldData) (k : String)
    (hw : wreq.ClientToken ≠ "") (hr : rreq.ClientToken ≠ "")
    (hne : wreq.ClientToken ≠ rreq.ClientToken)
    (hwa : wdataA.Get "accountId" = k) (hwp : wdataP.Get "path" = k)
    (hra : rdataA.Get "accountId" = k) (hrp : rdataP.Get "path" = k) :
    wreq.ClientToken ++ "/" ++ k ≠ rreq.ClientToken ++ "/" ++ k
    ∧ (handleWriteAccount s wreq wdataA).2.calls = s.calls ++
        (if wreq.Data.length = 0 then [] else [StorageCall.put (wreq.ClientToken ++ "/" ++ k)])
    ∧ (handleWrite s wreq wdataP).2.calls = s.calls ++
        (if wreq.Data.length = 0 then [] else [StorageCall.put (wreq.ClientToken ++ "/" ++ k)])
    ∧ (∀ t : Storage, (handleReadAccount lib t rreq rdataA).2.calls
        = t.calls ++ [StorageCall.get (rreq.ClientToken ++ "/" ++ k)])
    ∧ (∀ t : Storage, (handleReadSign lib t rreq rdataA).2.calls
        = t.calls ++ [StorageCall.get (rreq.ClientToken ++ "/" ++ k)])
    ∧ (∀ t : Storage, (handleRead lib t rreq rdataP).2.calls
        = t.calls ++ [StorageCall.get (rreq.ClientToken ++ "/" ++ k)])
    ∧ (handleReadAccount lib (handleWriteAccount s wreq wdataA).2 rreq rdataA).1
        = (handleReadAccount lib s rreq rdataA).1
    ∧ (handleReadSign lib (handleWriteAccount s wreq wdataA).2 rreq rdataA).1
        = (handleReadSign lib s rreq rdataA).1
    ∧ (handleRead lib (handleWriteAccount s wreq wdataA).2 rreq rdataP).1
        = (handleRead lib s rreq rdataP).1
    ∧ (handleReadAccount lib (handleWrite s wreq wdataP).2 rreq rdataA).1
        = (handleReadAccount lib s rreq rdataA).1
    ∧ (handleReadSign lib (handleWrite s wreq wdataP).2 rreq rdataA).1
        = (handleReadSign lib s rreq rdataA).1
    ∧ (handleRead lib (handleWrite s wreq wdataP).2 rreq rdataP).1
        = (handleRead lib s rreq rdataP).1 := by
  have hk : rreq.ClientToken ++ "/" ++ k ≠ wreq.ClientToken ++ "/" ++ k :=
    key_ne_of_token_ne _ _ k (Ne.symm hne)
  have fa := handleWriteAccount_frame s wreq wdataA
  have fp := handleWrite_frame s wreq wdataP
  rw [hwa] at fa
  rw [hwp] at fp
  refine ⟨Ne.symm hk, ?_, ?_, ?_, ?_, ?_, ?_, ?_, ?_, ?_, ?_, ?_⟩
  · rw [← hwa]; exact handleWriteAccount_calls s wreq wdataA hw
  · rw [← hwp]; exact handleWrite_calls s wreq wdataP hw
  · intro t; rw [← hra]; exact handleReadAccount_calls lib t rreq rdataA hr
  · intro t; rw [← hra]; exact handleReadSign_calls lib t rreq rdataA hr
  · intro t; rw [← hrp]; exact handleRead_calls lib t rreq rdataP hr
  · exact handleReadAccount_congr lib _ _ _ _ (by rw [hra]; exact fa.2 _ hk) fa.1
  · exact handleReadSign_congr lib _ _ _ _ (by rw [hra]; exact fa.2 _ hk) fa.1
  · exact handleRead_congr lib _ _ _ _ (by rw [hrp]; exact fa.2 _ hk) fa.1
  · exact handleReadAccount_congr lib _ _ _ _ (by rw [hra]; exact fp.2 _ hk) fp.1
  · exact handleReadSign_congr lib _ _ _ _ (by rw [hra]; exact fp.2 _ hk) fp.1
  · exact handleRead_congr lib _ _ _ _ (by rw [hrp]; exact fp.2 _ hk) fp.1

/-- C1 at a concrete input: `tok-B` writes `acct-1` while `tok-A` holds an account of the
same id; the read under `tok-A` still returns the derived value of its own account. -/
theorem tenant_isolation_witness :
    (scenarioRequest "tok-B" "account").ClientToken ≠ ""
    ∧ (scenarioRequest "tok-A" "account").ClientToken ≠ ""
    ∧ (scenarioRequest "tok-B" "account").ClientToken
        ≠ (scenarioRequest "tok-A" "account").ClientToken
    ∧ (handleReadAccount scenarioLibrary (handleWriteAccount scenarioStorage
          (scenarioRequest "tok-B" "account") scenarioData).2
          (scenarioRequest "tok-A" "account") scenarioData).1
        = (handleReadAccount scenarioLibrary scenarioStorage (scenarioRequest "tok-A" "account")
            scenarioData).1
    ∧ (handleReadAccount scenarioLibrary scenarioStorage (scenarioRequest "tok-A" "account")
        scenarioData).1
        = Outcome.returned
            (some { Data := [("signatureEncode64", Value.str "0x9876-0x1234")] }) none :=
  ⟨by decide, by decide, by decide,
    (tenant_isolation scenarioLibrary scenarioStorage (scenarioRequest "tok-B" "account")
      (scenarioRequest "tok-A" "account") scenarioData scenarioData scenarioData scenarioData
      "acct-1" (by decide) (by decide) (by decide) rfl rfl rfl rfl).2.2.2.2.2.2.1,
    rfl⟩

/-! ## C2: a read of an absent entry -/

/-- C2, the code at the failing input. Nothing is stored under `tok-A/acct-1` and the gateway
does not fail, so `Get` returns a nil entry; each read handler then reads `entry.Value` through
the nil pointer and stops with a panic, instead of returning the `No value at` response. The
existence checks (`out != nil`) do compare the entry itself with nil. -/
theorem read_absent_entry_panics :
    Storage.empty.entries ("tok-A" ++ "/" ++ scenarioData.Get "accountId") = none
    ∧ (handleReadAccount lib Storage.empty (scenarioRequest "tok-A" "account") scenarioData).1
        = Outcome.panicked nilDereference
    ∧ (handleReadSign lib Storage.empty (scenarioRequest "tok-A" "sign") scenarioData).1
        = Outcome.panicked nilDereference
    ∧ (handleRead lib Storage.empty (scenarioRequest "tok-A" "acct-1") scenarioData).1
        = Outcome.panicked nilDereference
    ∧ (handleReadAccount lib Storage.empty (scenarioRequest "tok-A" "account") scenarioData).1
        ≠ Outcome.returned (some (ErrorResponse ("No value at " ++ "mock/" ++ "acct-1"))) none :=
  ⟨rfl, rfl, rfl, rfl, fun h =>
    Outcome.noConfusion (show Outcome.panicked nilDereference = Outcome.returned _ _ from h)⟩

/-! ## C3: the empty caller token -/

/-- C3. For every gateway state and every request whose caller token is the empty string,
each of the six handlers returns no response and the error `client token empty`, and returns
the gateway exactly as it was: no entry changed and no `Get`, `Put` or `Delete` added to the
journal of calls, whatever the other fields and the payload are. -/
theorem empty_token_rejected (s : Storage) (req : Request) (data : FieldData)
    (h : req.ClientToken = "") :
    handleReadAccount lib s req data = (Outcome.returned none (some "client token empty"), s)
    ∧ handleWriteAccount s req data = (Outcome.returned none (some "client token empty"), s)
    ∧ handleReadSign lib s req data = (Outcome.returned none (some "client token empty"), s)
    ∧ handleRead lib s req data = (Outcome.returned none (some "client token empty"), s)
    ∧ handleWrite s req data = (Outcome.returned none (some "client token empty"), s)
    ∧ handleDelete s req data = (Outcome.returned none (some "client token empty"), s) := by
  simp [handleReadAccount, handleWriteAccount, handleReadSign, handleRead, handleWrite,
    handleDelete, h]

/-- C3 at a concrete input: an empty token and an empty payload on the gateway that holds
`tok-A/acct-1`; the write is refused and the journal of calls is as before. -/
theorem empty_token_rejected_witness :
    ({ ClientToken := "", MountPoint := "mock/", Path := "account", Data := [] } : Request).ClientToken
      = ""
    ∧ (handleWriteAccount scenarioStorage
          { ClientToken := "", MountPoint := "mock/", Path := "account", Data := [] }
          scenarioData).1 = Outcome.returned none (some "client token empty")
    ∧ (handleWriteAccount scenarioStorage
          { ClientToken := "", MountPoint := "mock/", Path := "account", Data := [] }
          scenarioData).2.calls = [StorageCall.put "tok-A/acct-1"] :=
  ⟨rfl,
    congrArg Prod.fst (empty_token_rejected scenarioLibrary scenarioStorage
      { ClientToken := "", MountPoint := "mock/", Path := "account", Data := [] }
      scenarioData rfl).2.1,
    (congrArg (fun r => r.2.calls) (empty_token_rejected scenarioLibrary scenarioStorage
      { ClientToken := "", MountPoint := "mock/", Path := "account", Data := [] }
      scenarioData rfl).2.1).trans rfl⟩

/-! ## C4: the account write -/

/-- C4. For every gateway state, non-empty caller token `c`, accountId `a` and non-empty
client payload, when the `Put` succeeds `handleWriteAccount` returns the response
`{accountId: a, status: true, txHash: "0x9876"}` with no error, and afterwards the gateway
holds under the key `c/a` an entry whose payload decodes to
`Account{AccountId: a, PublicKey: "0x1234", PrivateKey: "0x9876"}`. -/
theorem write_account_stores (s : Storage) (req : Request) (data : FieldData)
    (ht : req.ClientToken ≠ "") (hd : req.Data ≠ [])
    (hp : s.putErr (req.ClientToken ++ "/" ++ data.Get "accountId") = none) :
    (handleWriteAccount s req data).1
        = Outcome.returned (some { Data := [("accountId", Value.str (data.Get "accountId")),
            ("status", Value.bool true), ("txHash", Value.str "0x9876")] }) none
    ∧ ∃ entry, (handleWriteAccount s req data).2.entries
          (req.ClientToken ++ "/" ++ data.Get "accountId") = some entry
        ∧ entry.Key = req.ClientToken ++ "/" ++ data.Get "accountId"
        ∧ DecodeJSON lib entry.Value
          = .ok { AccountId := data.Get "accountId", PublicKey := "0x1234",
                  PrivateKey := "0x9876" } := by
  have hd2 : req.Data.length ≠ 0 := by simpa using hd
  obtain ⟨h1, h2, -⟩ := handleWriteAccount_ok s req data ht hd2 hp
  exact ⟨h1, _, h2, rfl, DecodeJSON_encodeAccount lib _⟩

/-- C4 at the scenario: `acct-1` written under `tok-A` on the empty gateway is stored under
`tok-A/acct-1`. -/
theorem write_account_stores_witness :
    (scenarioRequest "tok-A" "account").ClientToken ≠ ""
    ∧ (scenarioRequest "tok-A" "account").Data ≠ []
    ∧ (scenarioRequest "tok-A" "account").ClientToken ++ "/" ++ scenarioData.Get "accountId"
        = "tok-A/acct-1"
    ∧ (handleWriteAccount Storage.empty (scenarioRequest "tok-A" "account") scenarioData).1
        = Outcome.returned (some { Data := [("accountId", Value.str "acct-1"),
            ("status", Value.bool true), ("txHash", Value.str "0x9876")] }) none
    ∧ ∃ entry, scenarioStorage.entries "tok-A/acct-1" = some entry
        ∧ entry.Key = "tok-A/acct-1"
        ∧ DecodeJSON scenarioLibrary entry.Value
          = .ok { AccountId := "acct-1", PublicKey := "0x1234", PrivateKey := "0x9876" } :=
  ⟨by decide, by decide, by decide,
    (write_account_stores scenarioLibrary Storage.empty (scenarioRequest "tok-A" "account")
        scenarioData
      (by decide) (by decide) rfl).1,
    (write_account_stores scenarioLibrary Storage.empty (scenarioRequest "tok-A" "account")
        scenarioData
      (by decide) (by decide) rfl).2⟩

/-! ## C5: write, then read -/

/-- C5. Write then read. For every gateway state, caller token `c` and logical id `k`: after
a write under `(c, k)` that succeeded (it returned a response and no error:
`handleWriteAccount`, or `handleWrite` with path `k`), a read under the same `(c, k)`
(`handleReadAccount`, resp. `handleRead`) whose `Get` the gateway answers returns, with no
error, the response `{signatureEncode64: "0x9876-0x1234"}`, the written record's
`PrivateKey + "-" + PublicKey`. The token of a successful write is non-empty. -/
theorem write_then_read (s : Storage) (wreq rreq : Request) (wdata rdata : FieldData)
    (wresp : Response) (hc : rreq.ClientToken = wreq.ClientToken) :
    ((handleWriteAccount s wreq wdata).1 = Outcome.returned (some wresp) none →
      rdata.Get "accountId" = wdata.Get "accountId" →
      s.getErr (wreq.ClientToken ++ "/" ++ wdata.Get "accountId") = none →
      wreq.ClientToken ≠ ""
      ∧ (handleReadAccount lib (handleWriteAccount s wreq wdata).2 rreq rdata).1
        = Outcome.returned (some { Data := [("signatureEncode64",
            Value.str "0x9876-0x1234")] }) none)
    ∧ ((handleWrite s wreq wdata).1 = Outcome.returned (some wresp) none →
      rdata.Get "path" = wdata.Get "path" →
      s.getErr (wreq.ClientToken ++ "/" ++ wdata.Get "path") = none →
      wreq.ClientToken ≠ ""
      ∧ (handleRead lib (handleWrite s wreq wdata).2 rreq rdata).1
        = Outcome.returned (some { Data := [("signatureEncode64",
            Value.str "0x9876-0x1234")] }) none) := by
  constructor
  · intro hw hk hg
    obtain ⟨ht, hd, hp⟩ := handleWriteAccount_success s wreq wdata wresp hw
    obtain ⟨-, h2, h3⟩ := handleWriteAccount_ok s wreq wdata ht hd hp
    refine ⟨ht, ?_⟩
    have := handleReadAccount_found lib (handleWriteAccount s wreq wdata).2 rreq rdata _ _ _
      (by rw [hc]; exact ht) (by rw [h3, hc, hk]; exact hg) (by rw [hc, hk]; exact h2) rfl
      (DecodeJSON_encodeAccount lib _)
    rw [this]; rfl
  · intro hw hk hg
    obtain ⟨ht, hd, hp⟩ := handleWrite_success s wreq wdata wresp hw
    obtain ⟨-, h2, h3⟩ := handleWrite_ok s wreq wdata ht hd hp
    refine ⟨ht, ?_⟩
    have := handleRead_found lib (handleWrite s wreq wdata).2 rreq rdata _ _ _
      (by rw [hc]; exact ht) (by rw [h3, hc, hk]; exact hg) (by rw [hc, hk]; exact h2) rfl
      (DecodeJSON_encodeAccount lib _)
    rw [this]; rfl

/-- C5 at the scenario: `acct-1` written under `tok-A` on the empty gateway, then read under
`tok-A`. -/
theorem write_then_read_witness :
    (scenarioRequest "tok-A" "account").ClientToken = (scenarioRequest "tok-A" "account").ClientToken
    ∧ (handleWriteAccount Storage.empty (scenarioRequest "tok-A" "account") scenarioData).1
        = Outcome.returned (some { Data := [("accountId", Value.str "acct-1"),
            ("status", Value.bool true), ("txHash", Value.str "0x9876")] }) none
    ∧ (handleReadAccount scenarioLibrary
          (handleWriteAccount Storage.empty (scenarioRequest "tok-A" "account") scenarioData).2
          (scenarioRequest "tok-A" "account") scenarioData).1
        = Outcome.returned (some { Data := [("signatureEncode64",
            Value.str "0x9876-0x1234")] }) none :=
  ⟨rfl, rfl,
    ((write_then_read scenarioLibrary Storage.empty (scenarioRequest "tok-A" "account")
      (scenarioRequest "tok-A" "account") scenarioData scenarioData _ rfl).1 rfl rfl rfl).2⟩

/-! ## C6: read and sign -/

/-- C6. For every message `m`, non-empty caller token `c` and accountId `a` such that the
gateway holds under `c/a` an entry decoding to an account with private key `priv` and public
key `pub` (and answers the `Get`), `handleReadSign` returns, with no error, exactly
`{signatureEncode64: m + "-" + priv + "-" + pub}`, a concatenation; this is `m + "-"` put in
front of what `handleReadAccount` returns on the same state, token and id; and after the
write of `acct-1` under `tok-A`, signing `hello` returns `hello-0x9876-0x1234`. -/
theorem sign_concatenates (s : Storage) (req : Request) (data : FieldData)
    (entry : StorageEntry) (acct : Account)
    (ht : req.ClientToken ≠ "")
    (hg : s.getErr (req.ClientToken ++ "/" ++ data.Get "accountId") = none)
    (he : s.entries (req.ClientToken ++ "/" ++ data.Get "accountId") = some entry)
    (hdec : DecodeJSON lib entry.Value = .ok acct) :
    (handleReadSign lib s req data).1
        = Outcome.returned (some { Data := [("signatureEncode64",
            Value.str (data.Get "message" ++ "-" ++ acct.PrivateKey ++ "-" ++ acct.PublicKey))] })
            none
    ∧ (∃ out, (handleReadAccount lib s req data).1
          = Outcome.returned (some { Data := [("signatureEncode64", Value.str out)] }) none
        ∧ (handleReadSign lib s req data).1
          = Outcome.returned (some { Data := [("signatureEncode64",
              Value.str (data.Get "message" ++ "-" ++ out))] }) none)
    ∧ (handleReadSign lib scenarioStorage (scenarioRequest "tok-A" "sign") scenarioData).1
        = Outcome.returned (some { Data := [("signatureEncode64",
            Value.str "hello-0x9876-0x1234")] }) none := by
  cases hv : entry.Value with
  | none => rw [hv] at hdec; simp [DecodeJSON] at hdec
  | some payload =>
    rw [hv] at hdec
    have h1 := handleReadSign_found lib s req data entry payload acct ht hg he hv hdec
    have h2 := handleReadAccount_found lib s req data entry payload acct ht hg he hv hdec
    refine ⟨h1, ⟨_, h2, ?_⟩, rfl⟩
    rw [h1]
    simp [String.append_assoc]

/-- C6 at the scenario: the gateway holds `tok-A/acct-1` and the message is `hello`. -/
theorem sign_concatenates_witness :
    (scenarioRequest "tok-A" "sign").ClientToken ≠ ""
    ∧ scenarioData.Get "message" = "hello"
    ∧ (handleReadSign scenarioLibrary scenarioStorage (scenarioRequest "tok-A" "sign")
        scenarioData).1
        = Outcome.returned (some { Data := [("signatureEncode64",
            Value.str ("hello" ++ "-" ++ "0x9876" ++ "-" ++ "0x1234"))] }) none :=
  ⟨by decide, rfl,
    (sign_concatenates scenarioLibrary scenarioStorage (scenarioRequest "tok-A" "sign") scenarioData
      { Key := "tok-A/acct-1",
        Value := some (encodeAccount ⟨"acct-1", "0x1234", "0x9876"⟩), SealWrap := false }
      ⟨"acct-1", "0x1234", "0x9876"⟩ (by decide) rfl rfl rfl).1⟩

/-! ## C7: the record codec -/

/-- C7. Record codec round trip. For every `Account` value `a`, encoding `a` as the write
handlers do (`json.Marshal`) does not fail; the payload is a JSON object that carries the
three fields `AccountId`, `PublicKey`, `PrivateKey` with the values of `a`; and decoding the
payload as the read handlers do (`jsonutil.DecodeJSON` into an `Account`) succeeds and yields
`a`. -/
theorem codec_round_trip (a : Account) :
    ∃ payload, jsonMarshal a = .ok payload
      ∧ parseJSON payload
        = some (JValue.obj [("AccountId".data, JValue.str a.AccountId.data),
            ("PublicKey".data, JValue.str a.PublicKey.data),
            ("PrivateKey".data, JValue.str a.PrivateKey.data)])
      ∧ DecodeJSON lib (some payload) = .ok a :=
  ⟨encodeAccount a, rfl, parseJSON_encodeAccount a, DecodeJSON_encodeAccount lib a⟩

/-! ## C8: delete -/

/-- C8. For every gateway state, non-empty caller token `c` and path `p`, when the gateway
answers the `Delete`, `handleDelete` returns the empty success result (nil response, nil
error) and afterwards nothing is stored under `c/p`, every other key holding what it held;
its only call to the gateway is that `Delete` (no `Get`, so no existence check). When
nothing was stored under `c/p` the call succeeds all the same and the stored entries are
unchanged; a second delete succeeds and leaves the entries as the first one left them. -/
theorem delete_unconditional (s : Storage) (req : Request) (data : FieldData)
    (ht : req.ClientToken ≠ "")
    (hd : s.deleteErr (req.ClientToken ++ "/" ++ data.Get "path") = none) :
    (handleDelete s req data).1 = Outcome.returned none none
    ∧ (handleDelete s req data).2.entries (req.ClientToken ++ "/" ++ data.Get "path") = none
    ∧ (∀ k, k ≠ req.ClientToken ++ "/" ++ data.Get "path" →
        (handleDelete s req data).2.entries k = s.entries k)
    ∧ (handleDelete s req data).2.calls
        = s.calls ++ [StorageCall.delete (req.ClientToken ++ "/" ++ data.Get "path")]
    ∧ (s.entries (req.ClientToken ++ "/" ++ data.Get "path") = none →
        (handleDelete s req data).2.entries = s.entries)
    ∧ (handleDelete (handleDelete s req data).2 req data).1 = Outcome.returned none none
    ∧ (handleDelete (handleDelete s req data).2 req data).2.entries
        = (handleDelete s req data).2.entries := by
  have e : handleDelete s req data
      = (Outcome.returned none none,
          { s.record (StorageCall.delete (req.ClientToken ++ "/" ++ data.Get "path")) with
            entries := fun k =>
              if k = req.ClientToken ++ "/" ++ data.Get "path" then none else s.entries k }) := by
    unfold handleDelete Storage.Delete
    simp [ht, hd]
  have e2 : ∀ t : Storage, t.deleteErr = s.deleteErr → handleDelete t req data
      = (Outcome.returned none none,
          { t.record (StorageCall.delete (req.ClientToken ++ "/" ++ data.Get "path")) with
            entries := fun k =>
              if k = req.ClientToken ++ "/" ++ data.Get "path" then none else t.entries k }) := by
    intro t h
    unfold handleDelete Storage.Delete
    simp [ht, hd, h]
  rw [e2 (handleDelete s req data).2 (by rw [e]; rfl), e]
  refine ⟨rfl, by simp, fun k hk => by simp [hk], rfl, fun h => ?_, rfl, ?_⟩
  · funext k
    by_cases hk : k = req.ClientToken ++ "/" ++ data.Get "path"
    · simp [hk, h]
    · simp [hk]
  · funext k
    by_cases hk : k = req.ClientToken ++ "/" ++ data.Get "path" <;> simp [hk, Storage.record]

/-- C8 at the scenario: `acct-1` is deleted under `tok-A` from the gateway that holds
`tok-A/acct-1`. -/
theorem delete_unconditional_witness :
    (scenarioRequest "tok-A" "acct-1").ClientToken ≠ ""
    ∧ scenarioStorage.deleteErr ("tok-A" ++ "/" ++ scenarioData.Get "path") = none
    ∧ (scenarioStorage.entries "tok-A/acct-1").isSome = true
    ∧ (handleDelete scenarioStorage (scenarioRequest "tok-A" "acct-1") scenarioData).1
        = Outcome.returned none none
    ∧ (handleDelete scenarioStorage (scenarioRequest "tok-A" "acct-1") scenarioData).2.entries
        "tok-A/acct-1" = none :=
  ⟨by decide, rfl, rfl,
    (delete_unconditional scenarioStorage (scenarioRequest "tok-A" "acct-1") scenarioData
      (by decide) rfl).1,
    (delete_unconditional scenarioStorage (scenarioRequest "tok-A" "acct-1") scenarioData
      (by decide) rfl).2.1⟩

/-! ## C9: the existence checks -/

/-- C9 as stated fails. The gateway holds an entry under the resolved key `tok-A/acct-1`;
the three existence checks, called under `tok-A` for the id `acct-1` on their own request
paths, all answer `false`: they look up `req.Path`, and nothing is stored under `account`,
`sign` or `acct-1`. -/
theorem existence_check_not_resolved_key :
    (scenarioStorage.entries
        ((scenarioRequest "tok-A" "account").ClientToken ++ "/" ++
            scenarioData.Get "accountId")).isSome
      = true
    ∧ (scenarioStorage.entries
        ((scenarioRequest "tok-A" "acct-1").ClientToken ++ "/" ++ scenarioData.Get "path")).isSome
      = true
    ∧ (handleExistenceCheckAccount scenarioStorage (scenarioRequest "tok-A" "account")
        scenarioData).1 = (false, none)
    ∧ (handleExistenceCheckSign scenarioStorage (scenarioRequest "tok-A" "sign")
        scenarioData).1 = (false, none)
    ∧ (handleExistenceCheck scenarioStorage (scenarioRequest "tok-A" "acct-1")
        scenarioData).1 = (false, none) :=
  ⟨rfl, rfl, rfl, rfl, rfl⟩

/-- C9, amended. Each existence-check handler looks up the request path `req.Path`, not a
resolved key: for every gateway state and request, when the gateway answers the `Get` the
handler returns, with no error, `true` exactly when an entry is stored under `req.Path`, and
`false` otherwise, whatever the caller token and the logical id are; its only call to the
gateway is that `Get`, and the stored entries are unchanged. -/
theorem existence_check_request_path (s : Storage) (req : Request) (data : FieldData)
    (hg : s.getErr req.Path = none) :
    (handleExistenceCheckAccount s req data).1 = ((s.entries req.Path).isSome, none)
    ∧ (handleExistenceCheckSign s req data).1 = ((s.entries req.Path).isSome, none)
    ∧ (handleExistenceCheck s req data).1 = ((s.entries req.Path).isSome, none)
    ∧ (handleExistenceCheckAccount s req data).2 = s.record (StorageCall.get req.Path)
    ∧ (handleExistenceCheckSign s req data).2 = s.record (StorageCall.get req.Path)
    ∧ (handleExistenceCheck s req data).2 = s.record (StorageCall.get req.Path) := by
  simp [handleExistenceCheckAccount, handleExistenceCheckSign, handleExistenceCheck,
    Storage.Get, hg]

/-- C9, amended, at a concrete input: an entry stored under the request path `account`
makes the check answer `true` for a caller and an id that have no account. -/
theorem existence_check_request_path_witness :
    Storage.empty.getErr (scenarioRequest "tok-B" "account").Path = none
    ∧ (handleExistenceCheckAccount
        { Storage.empty with entries := fun k =>
            if k = "account" then some { Key := "account", Value := none, SealWrap := false }
            else none }
        (scenarioRequest "tok-B" "account") scenarioData).1 = (true, none) :=
  ⟨rfl,
    (existence_check_request_path
      { Storage.empty with entries := fun k =>
          if k = "account" then some { Key := "account", Value := none, SealWrap := false }
          else none }
      (scenarioRequest "tok-B" "account") scenarioData rfl).1⟩

/-! ## C10: storage failures -/

/-- C10. Storage failures are not masked. For every gateway state and request: when the
caller token is non-empty (and, for the writes, the payload is non-empty) and the gateway
answers the handler's one call with the error `e` (`Get` in the three read handlers, `Put`
in the two write handlers, `Delete` in `handleDelete`), the handler returns no response and
the error `e`; and an existence check whose `Get` fails with `e` returns `false` together
with the error `existence check failed: e`, never `false` with no error. -/
theorem storage_failure_propagates (s : Storage) (req : Request) (data : FieldData)
    (e : Error) :
    (req.ClientToken ≠ "" →
        s.getErr (req.ClientToken ++ "/" ++ data.Get "accountId") = some e →
        (handleReadAccount lib s req data).1 = Outcome.returned none (some e)
        ∧ (handleReadSign lib s req data).1 = Outcome.returned none (some e))
    ∧ (req.ClientToken ≠ "" →
        s.getErr (req.ClientToken ++ "/" ++ data.Get "path") = some e →
        (handleRead lib s req data).1 = Outcome.returned none (some e))
    ∧ (req.ClientToken ≠ "" → req.Data ≠ [] →
        s.putErr (req.ClientToken ++ "/" ++ data.Get "accountId") = some e →
        (handleWriteAccount s req data).1 = Outcome.returned none (some e))
    ∧ (req.ClientToken ≠ "" → req.Data ≠ [] →
        s.putErr (req.ClientToken ++ "/" ++ data.Get "path") = some e →
        (handleWrite s req data).1 = Outcome.returned none (some e))
    ∧ (req.ClientToken ≠ "" →
        s.deleteErr (req.ClientToken ++ "/" ++ data.Get "path") = some e →
        (handleDelete s req data).1 = Outcome.returned none (some e))
    ∧ (s.getErr req.Path = some e →
        (handleExistenceCheckAccount s req data).1
          = (false, some ("existence check failed: " ++ e))
        ∧ (handleExistenceCheckSign s req data).1
          = (false, some ("existence check failed: " ++ e))
        ∧ (handleExistenceCheck s req data).1
          = (false, some ("existence check failed: " ++ e))) := by
  refine ⟨fun ht hg => ?_, fun ht hg => ?_, fun ht hd hp => ?_, fun ht hd hp => ?_,
    fun ht hd => ?_, fun hg => ?_⟩
  · simp [handleReadAccount, handleReadSign, Storage.Get, ht, hg]
  · simp [handleRead, Storage.Get, ht, hg]
  · simp [handleWriteAccount, jsonMarshal, Storage.Put, ht, hd, hp]
  · simp [handleWrite, jsonMarshal, Storage.Put, ht, hd, hp]
  · simp [handleDelete, Storage.Delete, ht, hd]
  · simp [handleExistenceCheckAccount, handleExistenceCheckSign, handleExistenceCheck,
      Storage.Get, hg]

/-- C10 at a concrete input: on the gateway that fails every call, a read, a write, a delete
and an existence check under `tok-A` all return the gateway's error. -/
theorem storage_failure_propagates_witness :
    (scenarioRequest "tok-A" "account").ClientToken ≠ ""
    ∧ (scenarioRequest "tok-A" "account").Data ≠ []
    ∧ (handleReadAccount scenarioLibrary failingStorage (scenarioRequest "tok-A" "account")
        scenarioData).1
        = Outcome.returned none (some "storage unavailable")
    ∧ (handleWriteAccount failingStorage (scenarioRequest "tok-A" "account") scenarioData).1
        = Outcome.returned none (some "storage unavailable")
    ∧ (handleDelete failingStorage (scenarioRequest "tok-A" "account") scenarioData).1
        = Outcome.returned none (some "storage unavailable")
    ∧ (handleExistenceCheckAccount failingStorage (scenarioRequest "tok-A" "account")
        scenarioData).1 = (false, some ("existence check failed: " ++ "storage unavailable")) :=
  ⟨by decide, by decide,
    ((storage_failure_propagates scenarioLibrary failingStorage (scenarioRequest "tok-A" "account")
      scenarioData "storage unavailable").1 (by decide) rfl).1,
    (storage_failure_propagates scenarioLibrary failingStorage (scenarioRequest "tok-A" "account")
      scenarioData "storage unavailable").2.2.1 (by decide) (by decide) rfl,
    (storage_failure_propagates scenarioLibrary failingStorage (scenarioRequest "tok-A" "account")
      scenarioData "storage unavailable").2.2.2.2.1 (by decide) rfl,
    ((storage_failure_propagates scenarioLibrary failingStorage (scenarioRequest "tok-A" "account")
      scenarioData "storage unavailable").2.2.2.2.2 rfl).1⟩

/-! ## C11: the empty payload -/

/-- C11. For every gateway state and every write request (`handleWriteAccount`,
`handleWrite`) with a non-empty caller token: when the client data has zero fields the
handler returns no response and the error `data must be provided to store in secret`, and
returns the gateway exactly as it was (no `Put`, no entry changed); when the client data has
at least one field the check lets the request through: the handler makes its `Put` at the
resolved key and returns what the `Put` decides, the gateway's error or the success
response. -/
theorem empty_payload_rejected (s : Storage) (req : Request) (data : FieldData)
    (ht : req.ClientToken ≠ "") :
    (req.Data = [] →
      handleWriteAccount s req data
        = (Outcome.returned none (some "data must be provided to store in secret"), s)
      ∧ handleWrite s req data
        = (Outcome.returned none (some "data must be provided to store in secret"), s))
    ∧ (req.Data ≠ [] →
      (handleWriteAccount s req data).2.calls
        = s.calls ++ [StorageCall.put (req.ClientToken ++ "/" ++ data.Get "accountId")]
      ∧ (handleWriteAccount s req data).1
        = (match s.putErr (req.ClientToken ++ "/" ++ data.Get "accountId") with
          | some e => Outcome.returned none (some e)
          | none => Outcome.returned (some { Data := [("accountId",
              Value.str (data.Get "accountId")), ("status", Value.bool true),
              ("txHash", Value.str "0x9876")] }) none)
      ∧ (handleWrite s req data).2.calls
        = s.calls ++ [StorageCall.put (req.ClientToken ++ "/" ++ data.Get "path")]
      ∧ (handleWrite s req data).1
        = (match s.putErr (req.ClientToken ++ "/" ++ data.Get "path") with
          | some e => Outcome.returned none (some e)
          | none => Outcome.returned (some { Data := [("accountId",
              Value.str (data.Get "accountId")), ("status", Value.bool true),
              ("txHash", Value.str "0x9876")] }) none)) := by
  constructor
  · intro hd
    simp [handleWriteAccount, handleWrite, ht, hd]
  · intro hd
    have hl : req.Data.length ≠ 0 := by simpa using hd
    refine ⟨?_, ?_, ?_, ?_⟩
    · rw [handleWriteAccount_calls s req data ht]; simp [hl]
    · unfold handleWriteAccount jsonMarshal Storage.Put
      simp only [ht, hl, if_false]
      cases s.putErr (req.ClientToken ++ "/" ++ data.Get "accountId") <;> rfl
    · rw [handleWrite_calls s req data ht]; simp [hl]
    · unfold handleWrite jsonMarshal Storage.Put
      simp only [ht, hl, if_false]
      cases s.putErr (req.ClientToken ++ "/" ++ data.Get "path") <;> rfl

/-- C11 at a concrete input: under `tok-A`, a write with no client field is refused on the
gateway that holds `tok-A/acct-1`, and a write with one field is stored. -/
theorem empty_payload_rejected_witness :
    ({ ClientToken := "tok-A", MountPoint := "mock/", Path := "account", Data := [] }
        : Request).ClientToken ≠ ""
    ∧ handleWriteAccount scenarioStorage
        { ClientToken := "tok-A", MountPoint := "mock/", Path := "account", Data := [] }
        scenarioData
      = (Outcome.returned none (some "data must be provided to store in secret"),
          scenarioStorage)
    ∧ (handleWriteAccount scenarioStorage (scenarioRequest "tok-A" "account") scenarioData).1
      = Outcome.returned (some { Data := [("accountId", Value.str "acct-1"),
          ("status", Value.bool true), ("txHash", Value.str "0x9876")] }) none :=
  ⟨by decide,
    ((empty_payload_rejected scenarioStorage
      { ClientToken := "tok-A", MountPoint := "mock/", Path := "account", Data := [] }
      scenarioData (by decide)).1 rfl).1,
    ((empty_payload_rejected scenarioStorage (scenarioRequest "tok-A" "account") scenarioData
      (by decide)).2 (by decide)).2.1⟩

/-! ## C12: the registered paths -/

/-- C12 as stated fails. `newBackend` appends `accountPaths()` and `signPaths()` only: the
patterns it registers are `account` and `sign`, the wildcard pattern of `paths()` is not
among them, and no verb of that pattern has a callback in the backend. -/
theorem wildcard_path_not_registered :
    ∃ b, newBackend scenarioLibrary = .ok b
      ∧ b.Paths.map (fun p => p.Pattern) = ["account", "sign"]
      ∧ (b.findPath (MatchAllRegex "path")).isNone = true
      ∧ (b.callback (MatchAllRegex "path") Operation.ReadOperation).isNone = true
      ∧ (b.callback (MatchAllRegex "path") Operation.CreateOperation).isNone = true
      ∧ (b.callback (MatchAllRegex "path") Operation.UpdateOperation).isNone = true
      ∧ (b.callback (MatchAllRegex "path") Operation.DeleteOperation).isNone = true :=
  ⟨_, rfl, rfl, rfl, rfl, rfl, rfl, rfl⟩

/-- C12, amended. The backend built by `newBackend` registers exactly the patterns `account`
(read bound to `handleReadAccount`, create to `handleWriteAccount`, no update and no delete)
and `sign` (read bound to `handleReadSign`, no other verb). The wildcard pattern is built by
`paths()` with read bound to `handleRead`, create and update to `handleWrite` and delete to
`handleDelete`, but `newBackend` does not register it. -/
theorem registered_paths :
    ∃ b, newBackend lib = .ok b
      ∧ b.Paths.map (fun p => p.Pattern) = ["account", "sign"]
      ∧ b.callback "account" Operation.ReadOperation = some (handleReadAccount lib)
      ∧ b.callback "account" Operation.CreateOperation = some handleWriteAccount
      ∧ b.callback "account" Operation.UpdateOperation = none
      ∧ b.callback "account" Operation.DeleteOperation = none
      ∧ b.callback "sign" Operation.ReadOperation = some (handleReadSign lib)
      ∧ b.callback "sign" Operation.CreateOperation = none
      ∧ b.callback "sign" Operation.UpdateOperation = none
      ∧ b.callback "sign" Operation.DeleteOperation = none
      ∧ (∀ op, b.callback (MatchAllRegex "path") op = none)
      ∧ (paths lib).map (fun p => (p.Pattern, p.Operations.map (fun o => (o.1, o.2.Callback))))
        = [(MatchAllRegex "path", [(Operation.ReadOperation, handleRead lib),
            (Operation.UpdateOperation, handleWrite), (Operation.CreateOperation, handleWrite),
            (Operation.DeleteOperation, handleDelete)])] :=
  ⟨_, rfl, rfl, rfl, rfl, rfl, rfl, rfl, rfl, rfl, rfl, fun op => by cases op <;> rfl, rfl⟩

/-! ## C13: a payload that does not decode -/

/-- C13. For every library (decompression readers and decoder error texts) and every request
with a non-empty caller token whose resolved key holds (and the gateway returns) an entry
with a non-nil payload on which `DecodeJSON` fails with `err` (the payload is not JSON for an
`Account`, or it is compressed and does not decompress to such JSON), each read handler
(`handleReadAccount`, `handleReadSign`, `handleRead`) returns no response and the error
`json decoding failed: err`, so no `signatureEncode64` built from empty key fields, and the
stored entries are what they were. -/
theorem decode_failure_propagates (s : Storage) (req : Request) (data : FieldData)
    (entry : StorageEntry) (payload : List Char) (err : Error)
    (ht : req.ClientToken ≠ "") (hv : entry.Value = some payload)
    (hdec : DecodeJSON lib (some payload) = .error err) :
    (s.getErr (req.ClientToken ++ "/" ++ data.Get "accountId") = none →
      s.entries (req.ClientToken ++ "/" ++ data.Get "accountId") = some entry →
      (handleReadAccount lib s req data).1
          = Outcome.returned none (some ("json decoding failed: " ++ err))
        ∧ (handleReadAccount lib s req data).2.entries = s.entries
        ∧ (handleReadSign lib s req data).1
          = Outcome.returned none (some ("json decoding failed: " ++ err))
        ∧ (handleReadSign lib s req data).2.entries = s.entries)
    ∧ (s.getErr (req.ClientToken ++ "/" ++ data.Get "path") = none →
      s.entries (req.ClientToken ++ "/" ++ data.Get "path") = some entry →
      (handleRead lib s req data).1
          = Outcome.returned none (some ("json decoding failed: " ++ err))
        ∧ (handleRead lib s req data).2.entries = s.entries) := by
  refine ⟨fun hg he => ?_, fun hg he => ?_⟩
  · rw [handleReadAccount_corrupt lib s req data entry payload err ht hg he hv hdec,
      handleReadSign_corrupt lib s req data entry payload err ht hg he hv hdec]
    exact ⟨rfl, rfl, rfl, rfl⟩
  · rw [handleRead_corrupt lib s req data entry payload err ht hg he hv hdec]
    exact ⟨rfl, rfl⟩

/-- C13 at a concrete input: the payload under `tok-A/acct-1` is the text `not json`, on which
the decoder fails; the three read handlers return that error, wrapped, and no response. -/
theorem decode_failure_propagates_witness :
    (scenarioRequest "tok-A" "account").ClientToken ≠ ""
    ∧ DecodeJSON scenarioLibrary (some "not json".data)
        = .error "invalid character 'o' in literal null (expecting 'u')"
    ∧ (handleReadAccount scenarioLibrary corruptStorage (scenarioRequest "tok-A" "account")
          scenarioData).1
        = Outcome.returned none
            (some "json decoding failed: invalid character 'o' in literal null (expecting 'u')")
    ∧ (handleReadSign scenarioLibrary corruptStorage (scenarioRequest "tok-A" "account")
          scenarioData).1
        = Outcome.returned none
            (some "json decoding failed: invalid character 'o' in literal null (expecting 'u')")
    ∧ (handleRead scenarioLibrary corruptStorage (scenarioRequest "tok-A" "account")
          scenarioData).1
        = Outcome.returned none
            (some "json decoding failed: invalid character 'o' in literal null (expecting 'u')") :=
  ⟨by decide, rfl,
    ((decode_failure_propagates scenarioLibrary corruptStorage
      (scenarioRequest "tok-A" "account") scenarioData
      { Key := "tok-A/acct-1", Value := some "not json".data, SealWrap := false }
      "not json".data "invalid character 'o' in literal null (expecting 'u')"
      (by decide) rfl rfl).1 rfl rfl).1,
    ((decode_failure_propagates scenarioLibrary corruptStorage
      (scenarioRequest "tok-A" "account") scenarioData
      { Key := "tok-A/acct-1", Value := some "not json".data, SealWrap := false }
      "not json".data "invalid character 'o' in literal null (expecting 'u')"
      (by decide) rfl rfl).1 rfl rfl).2.2.1,
    ((decode_failure_propagates scenarioLibrary corruptStorage
      (scenarioRequest "tok-A" "account") scenarioData
      { Key := "tok-A/acct-1", Value := some "not json".data, SealWrap := false }
      "not json".data "invalid character 'o' in literal null (expecting 'u')"
      (by decide) rfl rfl).2 rfl rfl).1⟩

/-! ## C14: the storage invariant -/

/-- C14. Storage invariant. In every gateway state reached from a gateway that holds nothing
by any sequence of handler calls (the nine handlers, with any tokens, ids and payloads, and
whatever the calls return), every stored entry was put by a write call of the sequence
(`handleWriteAccount` or `handleWrite`) made under a non-empty caller token: its key is that
token, a slash and a logical id, the key the call resolved; the entry carries its own key;
and its payload decodes to an `Account` with `PublicKey` `0x1234` and `PrivateKey`
`0x9876`. -/
theorem storage_invariant (s0 : Storage) (calls : List Call) (k : String)
    (entry : StorageEntry) (h0 : ∀ key, s0.entries key = none)
    (hk : (runCalls lib s0 calls).entries k = some entry) :
    ∃ w ∈ calls,
      (w.handler = HandlerName.handleWriteAccount ∨ w.handler = HandlerName.handleWrite)
      ∧ w.req.ClientToken ≠ ""
      ∧ w.writeKey = some k
      ∧ (∃ logicalId, k = w.req.ClientToken ++ "/" ++ logicalId)
      ∧ entry.Key = k
      ∧ ∃ accountId, DecodeJSON lib entry.Value
          = .ok { AccountId := accountId, PublicKey := "0x1234", PrivateKey := "0x9876" } := by
  obtain ⟨w, hw, hkey, ht, he⟩ := runCalls_invariant lib s0 calls h0 k entry hk
  obtain ⟨hh, hform⟩ := Call.writeKey_form w k hkey
  refine ⟨w, hw, hh, ht, hkey, hform, by rw [he]; rfl, w.data.Get "accountId", ?_⟩
  rw [he]
  exact DecodeJSON_encodeAccount lib _

/-- C14 at a concrete input: `tok-A` writes `acct-1`, reads it, and `tok-B` writes and
deletes `acct-1`; what is stored under `tok-A/acct-1` came from the write under `tok-A`. -/
theorem storage_invariant_witness :
    (∀ key, Storage.empty.entries key = none)
    ∧ (runCalls scenarioLibrary Storage.empty
        [⟨HandlerName.handleWriteAccount, scenarioRequest "tok-A" "account", scenarioData⟩,
         ⟨HandlerName.handleReadAccount, scenarioRequest "tok-A" "account", scenarioData⟩,
         ⟨HandlerName.handleWrite, scenarioRequest "tok-B" "acct-1", scenarioData⟩,
         ⟨HandlerName.handleDelete, scenarioRequest "tok-B" "acct-1", scenarioData⟩]).entries
        "tok-A/acct-1" = some (writtenEntry "tok-A/acct-1" "acct-1")
    ∧ ∃ w ∈ [(⟨HandlerName.handleWriteAccount, scenarioRequest "tok-A" "account",
                scenarioData⟩ : Call),
         ⟨HandlerName.handleReadAccount, scenarioRequest "tok-A" "account", scenarioData⟩,
         ⟨HandlerName.handleWrite, scenarioRequest "tok-B" "acct-1", scenarioData⟩,
         ⟨HandlerName.handleDelete, scenarioRequest "tok-B" "acct-1", scenarioData⟩],
      (w.handler = HandlerName.handleWriteAccount ∨ w.handler = HandlerName.handleWrite)
      ∧ w.req.ClientToken ≠ ""
      ∧ w.writeKey = some "tok-A/acct-1"
      ∧ (∃ logicalId, "tok-A/acct-1" = w.req.ClientToken ++ "/" ++ logicalId)
      ∧ (writtenEntry "tok-A/acct-1" "acct-1").Key = "tok-A/acct-1"
      ∧ ∃ accountId, DecodeJSON scenarioLibrary (writtenEntry "tok-A/acct-1" "acct-1").Value
          = .ok { AccountId := accountId, PublicKey := "0x1234", PrivateKey := "0x9876" } :=
  ⟨fun _ => rfl, rfl,
    storage_invariant scenarioLibrary Storage.empty _ "tok-A/acct-1"
      (writtenEntry "tok-A/acct-1" "acct-1")
      (fun _ => rfl) rfl⟩

/-! ## C15: the key material is fixed -/

/-- C15. The stored key material depends neither on the client input nor on the prior
state. For every two gateway states and every two write requests under the same non-empty
token with non-empty payloads (whatever they hold) and the same `accountId` field (and, for
`handleWrite`, the same `path`), when both `Put`s succeed the two writes return the same
response and store the same entry under `c/k`, whose payload decodes to `PublicKey`
`0x1234` and `PrivateKey` `0x9876`; and if the two states agreed outside `c/k`, they agree
everywhere afterwards. -/
theorem key_material_fixed (s1 s2 : Storage) (req1 req2 : Request) (data1 data2 : FieldData)
    (hc : req1.ClientToken = req2.ClientToken) (ht : req1.ClientToken ≠ "")
    (hd1 : req1.Data ≠ []) (hd2 : req2.Data ≠ [])
    (ha : data1.Get "accountId" = data2.Get "accountId") :
    (s1.putErr (req1.ClientToken ++ "/" ++ data1.Get "accountId") = none →
      s2.putErr (req1.ClientToken ++ "/" ++ data1.Get "accountId") = none →
      (handleWriteAccount s1 req1 data1).1 = (handleWriteAccount s2 req2 data2).1
      ∧ (handleWriteAccount s1 req1 data1).2.entries
            (req1.ClientToken ++ "/" ++ data1.Get "accountId")
          = (handleWriteAccount s2 req2 data2).2.entries
            (req1.ClientToken ++ "/" ++ data1.Get "accountId")
      ∧ (∃ entry, (handleWriteAccount s1 req1 data1).2.entries
            (req1.ClientToken ++ "/" ++ data1.Get "accountId") = some entry
          ∧ DecodeJSON lib entry.Value = .ok
            { AccountId := data1.Get "accountId", PublicKey := "0x1234",
              PrivateKey := "0x9876" })
      ∧ ((∀ k, k ≠ req1.ClientToken ++ "/" ++ data1.Get "accountId" →
            s1.entries k = s2.entries k) →
          (handleWriteAccount s1 req1 data1).2.entries
            = (handleWriteAccount s2 req2 data2).2.entries))
    ∧ (data1.Get "path" = data2.Get "path" →
      s1.putErr (req1.ClientToken ++ "/" ++ data1.Get "path") = none →
      s2.putErr (req1.ClientToken ++ "/" ++ data1.Get "path") = none →
      (handleWrite s1 req1 data1).1 = (handleWrite s2 req2 data2).1
      ∧ (handleWrite s1 req1 data1).2.entries (req1.ClientToken ++ "/" ++ data1.Get "path")
          = (handleWrite s2 req2 data2).2.entries (req1.ClientToken ++ "/" ++ data1.Get "path")
      ∧ (∃ entry, (handleWrite s1 req1 data1).2.entries
            (req1.ClientToken ++ "/" ++ data1.Get "path") = some entry
          ∧ DecodeJSON lib entry.Value = .ok
            { AccountId := data1.Get "accountId", PublicKey := "0x1234",
              PrivateKey := "0x9876" })
      ∧ ((∀ k, k ≠ req1.ClientToken ++ "/" ++ data1.Get "path" →
            s1.entries k = s2.entries k) →
          (handleWrite s1 req1 data1).2.entries = (handleWrite s2 req2 data2).2.entries)) := by
  have hl1 : req1.Data.length ≠ 0 := by simpa using hd1
  have hl2 : req2.Data.length ≠ 0 := by simpa using hd2
  have ht2 : req2.ClientToken ≠ "" := hc ▸ ht
  constructor
  · intro hp1 hp2
    have e1 := handleWriteAccount_eq s1 req1 data1 ht hl1 hp1
    have e2 := handleWriteAccount_eq s2 req2 data2 ht2 hl2 (by rw [← hc, ← ha]; exact hp2)
    rw [← hc, ← ha] at e2
    rw [e1, e2]
    refine ⟨rfl, by simp, ⟨_, by simp; rfl, DecodeJSON_encodeAccount lib _⟩, fun hag => ?_⟩
    funext k
    by_cases hk : k = req1.ClientToken ++ "/" ++ data1.Get "accountId"
    · simp [hk]
    · simp [hk, hag k hk]
  · intro hpath hp1 hp2
    have e1 := handleWrite_eq s1 req1 data1 ht hl1 hp1
    have e2 := handleWrite_eq s2 req2 data2 ht2 hl2 (by rw [← hc, ← hpath]; exact hp2)
    rw [← hc, ← ha, ← hpath] at e2
    rw [e1, e2]
    refine ⟨rfl, by simp, ⟨_, by simp; rfl, DecodeJSON_encodeAccount lib _⟩, fun hag => ?_⟩
    funext k
    by_cases hk : k = req1.ClientToken ++ "/" ++ data1.Get "path"
    · simp [hk]
    · simp [hk, hag k hk]

/-- C15 at a concrete input: two different payloads with the same `accountId`, written under
`tok-A` on the empty gateway and on the gateway that already holds `tok-A/acct-1`. -/
theorem key_material_fixed_witness :
    (scenarioRequest "tok-A" "account").ClientToken ≠ ""
    ∧ (scenarioRequest "tok-A" "account").Data ≠ []
    ∧ (handleWriteAccount Storage.empty (scenarioRequest "tok-A" "account") scenarioData).1
        = (handleWriteAccount scenarioStorage
            { ClientToken := "tok-A", MountPoint := "mock/", Path := "account",
              Data := [("accountId", Value.str "acct-1"), ("PrivateKey", Value.str "0xdead"),
                ("PublicKey", Value.str "0xbeef")] }
            scenarioData).1
    ∧ (handleWriteAccount Storage.empty (scenarioRequest "tok-A" "account")
          scenarioData).2.entries "tok-A/acct-1"
        = (handleWriteAccount scenarioStorage
            { ClientToken := "tok-A", MountPoint := "mock/", Path := "account",
              Data := [("accountId", Value.str "acct-1"), ("PrivateKey", Value.str "0xdead"),
                ("PublicKey", Value.str "0xbeef")] }
            scenarioData).2.entries "tok-A/acct-1" :=
  ⟨by decide, by decide,
    ((key_material_fixed scenarioLibrary Storage.empty scenarioStorage (scenarioRequest "tok-A" "account")
      { ClientToken := "tok-A", MountPoint := "mock/", Path := "account",
        Data := [("accountId", Value.str "acct-1"), ("PrivateKey", Value.str "0xdead"),
          ("PublicKey", Value.str "0xbeef")] }
      scenarioData scenarioData rfl (by decide) (by decide) (by simp) rfl).1 rfl rfl).1,
    ((key_material_fixed scenarioLibrary Storage.empty scenarioStorage (scenarioRequest "tok-A" "account")
      { ClientToken := "tok-A", MountPoint := "mock/", Path := "account",
        Data := [("accountId", Value.str "acct-1"), ("PrivateKey", Value.str "0xdead"),
          ("PublicKey", Value.str "0xbeef")] }
      scenarioData scenarioData rfl (by decide) (by decide) (by simp) rfl).1 rfl rfl).2.1⟩

/-! ## C16: overwrite on write -/

/-- C16. Overwrite on write. For every gateway state in which an entry `old` is stored under
`c/k`, a write under `(c, k)` with a non-empty payload whose `Put` the gateway accepts
returns the success response and no error; its only call to the gateway is that `Put` (no
`Get`, so no version or existence check); afterwards the entry under `c/k` is the record of
this write, whatever `old` was; and writing the same request a second time succeeds again
and leaves the stored entries as the first write left them. -/
theorem write_overwrites (s : Storage) (req : Request) (data : FieldData)
    (old : StorageEntry) (ht : req.ClientToken ≠ "") (hd : req.Data ≠ []) :
    (s.entries (req.ClientToken ++ "/" ++ data.Get "accountId") = some old →
      s.putErr (req.ClientToken ++ "/" ++ data.Get "accountId") = none →
      (handleWriteAccount s req data).1
          = Outcome.returned (some { Data := [("accountId", Value.str (data.Get "accountId")),
              ("status", Value.bool true), ("txHash", Value.str "0x9876")] }) none
        ∧ (handleWriteAccount s req data).2.calls
          = s.calls ++ [StorageCall.put (req.ClientToken ++ "/" ++ data.Get "accountId")]
        ∧ (handleWriteAccount s req data).2.entries
            (req.ClientToken ++ "/" ++ data.Get "accountId")
          = some (writtenEntry (req.ClientToken ++ "/" ++ data.Get "accountId")
              (data.Get "accountId"))
        ∧ (handleWriteAccount (handleWriteAccount s req data).2 req data).1
          = (handleWriteAccount s req data).1
        ∧ (handleWriteAccount (handleWriteAccount s req data).2 req data).2.entries
          = (handleWriteAccount s req data).2.entries)
    ∧ (s.entries (req.ClientToken ++ "/" ++ data.Get "path") = some old →
      s.putErr (req.ClientToken ++ "/" ++ data.Get "path") = none →
      (handleWrite s req data).1
          = Outcome.returned (some { Data := [("accountId", Value.str (data.Get "accountId")),
              ("status", Value.bool true), ("txHash", Value.str "0x9876")] }) none
        ∧ (handleWrite s req data).2.calls
          = s.calls ++ [StorageCall.put (req.ClientToken ++ "/" ++ data.Get "path")]
        ∧ (handleWrite s req data).2.entries (req.ClientToken ++ "/" ++ data.Get "path")
          = some (writtenEntry (req.ClientToken ++ "/" ++ data.Get "path")
              (data.Get "accountId"))
        ∧ (handleWrite (handleWrite s req data).2 req data).1 = (handleWrite s req data).1
        ∧ (handleWrite (handleWrite s req data).2 req data).2.entries
          = (handleWrite s req data).2.entries) := by
  have hl : req.Data.length ≠ 0 := by simpa using hd
  constructor
  · intro _ hp
    have e1 := handleWriteAccount_eq s req data ht hl hp
    have e2 := handleWriteAccount_eq (handleWriteAccount s req data).2 req data ht hl
      (by rw [e1]; exact hp)
    rw [e2, e1]
    refine ⟨rfl, rfl, by simp, rfl, ?_⟩
    funext k
    by_cases hk : k = req.ClientToken ++ "/" ++ data.Get "accountId" <;> simp [hk]
  · intro _ hp
    have e1 := handleWrite_eq s req data ht hl hp
    have e2 := handleWrite_eq (handleWrite s req data).2 req data ht hl (by rw [e1]; exact hp)
    rw [e2, e1]
    refine ⟨rfl, rfl, by simp, rfl, ?_⟩
    funext k
    by_cases hk : k = req.ClientToken ++ "/" ++ data.Get "path" <;> simp [hk]

/-- C16 at a concrete input: `acct-1` is written under `tok-A` on the gateway that already
holds `tok-A/acct-1`. -/
theorem write_overwrites_witness :
    (scenarioRequest "tok-A" "account").ClientToken ≠ ""
    ∧ (scenarioRequest "tok-A" "account").Data ≠ []
    ∧ scenarioStorage.entries "tok-A/acct-1" = some (writtenEntry "tok-A/acct-1" "acct-1")
    ∧ (handleWriteAccount scenarioStorage (scenarioRequest "tok-A" "account") scenarioData).1
        = Outcome.returned (some { Data := [("accountId", Value.str "acct-1"),
            ("status", Value.bool true), ("txHash", Value.str "0x9876")] }) none
    ∧ (handleWriteAccount scenarioStorage (scenarioRequest "tok-A" "account")
          scenarioData).2.calls
        = [StorageCall.put "tok-A/acct-1", StorageCall.put "tok-A/acct-1"] :=
  ⟨by decide, by decide, rfl,
    ((write_overwrites scenarioStorage (scenarioRequest "tok-A" "account") scenarioData
      (writtenEntry "tok-A/acct-1" "acct-1") (by decide) (by decide)).1 rfl rfl).1,
    ((write_overwrites scenarioStorage (scenarioRequest "tok-A" "account") scenarioData
      (writtenEntry "tok-A/acct-1" "acct-1") (by decide) (by decide)).1 rfl rfl).2.1⟩

/-! ## C17: separator collision -/

/-- C17. Separator collision. The resolution `callerToken + "/" + logicalId` is not
injective: the distinct non-empty tokens `a` and `a/b` with the ids `b/c` and `c` resolve
the same key `a/b/c`. On the gateway that holds nothing, what is written under
`(a, b/c)` (by `handleWrite`, resp. `handleWriteAccount`) is returned by the read under
`(a/b, c)` (`handleRead`, resp. `handleReadAccount`), which finds nothing before the write,
and is removed by `handleDelete` under `(a/b, c)`. Restricted to tokens that contain no `/`
the resolution is injective. -/
theorem separator_collision :
    ("a" : String) ≠ "a/b" ∧ ("a" : String) ≠ "" ∧ ("a/b" : String) ≠ ""
    ∧ ("a" : String) ++ "/" ++ "b/c" = "a/b" ++ "/" ++ "c"
    ∧ (handleRead lib Storage.empty
          { ClientToken := "a/b", MountPoint := "mock/", Path := "c", Data := [] }
          { Raw := [("path", "c"), ("accountId", "c")] }).1
        = Outcome.panicked nilDereference
    ∧ (handleRead lib
          (handleWrite Storage.empty
            { ClientToken := "a", MountPoint := "mock/", Path := "b/c",
              Data := [("accountId", Value.str "b/c")] }
            { Raw := [("path", "b/c"), ("accountId", "b/c")] }).2
          { ClientToken := "a/b", MountPoint := "mock/", Path := "c", Data := [] }
          { Raw := [("path", "c"), ("accountId", "c")] }).1
        = Outcome.returned (some { Data := [("signatureEncode64",
            Value.str "0x9876-0x1234")] }) none
    ∧ (handleReadAccount lib
          (handleWriteAccount Storage.empty
            { ClientToken := "a", MountPoint := "mock/", Path := "account",
              Data := [("accountId", Value.str "b/c")] }
            { Raw := [("path", "b/c"), ("accountId", "b/c")] }).2
          { ClientToken := "a/b", MountPoint := "mock/", Path := "account", Data := [] }
          { Raw := [("path", "c"), ("accountId", "c")] }).1
        = Outcome.returned (some { Data := [("signatureEncode64",
            Value.str "0x9876-0x1234")] }) none
    ∧ ((handleWrite Storage.empty
            { ClientToken := "a", MountPoint := "mock/", Path := "b/c",
              Data := [("accountId", Value.str "b/c")] }
            { Raw := [("path", "b/c"), ("accountId", "b/c")] }).2.entries "a/b/c").isSome
        = true
    ∧ (handleDelete
          (handleWrite Storage.empty
            { ClientToken := "a", MountPoint := "mock/", Path := "b/c",
              Data := [("accountId", Value.str "b/c")] }
            { Raw := [("path", "b/c"), ("accountId", "b/c")] }).2
          { ClientToken := "a/b", MountPoint := "mock/", Path := "c", Data := [] }
          { Raw := [("path", "c"), ("accountId", "c")] }).2.entries "a/b/c" = none
    ∧ (∀ c1 c2 k1 k2 : String, '/' ∉ c1.data → '/' ∉ c2.data →
        c1 ++ "/" ++ k1 = c2 ++ "/" ++ k2 → c1 = c2 ∧ k1 = k2) :=
  ⟨by decide, by decide, by decide, by decide, rfl, rfl, rfl, rfl, rfl,
    fun c1 c2 k1 k2 h1 h2 h => key_inj_of_no_slash c1 c2 k1 k2 h1 h2 h⟩

/-- C17 at a concrete input: the tokens `tok-A` and `tok-B` hold no `/`, so their keys for
`acct-1` and `acct-2` differ. -/
theorem separator_collision_witness :
    '/' ∉ ("tok-A" : String).data ∧ '/' ∉ ("tok-B" : String).data
    ∧ ("tok-A" : String) ++ "/" ++ "acct-1" ≠ "tok-B" ++ "/" ++ "acct-2" :=
  ⟨by decide, by decide, fun h =>
    absurd ((separator_collision scenarioLibrary).2.2.2.2.2.2.2.2.2
      "tok-A" "tok-B" "acct-1" "acct-2"
      (by decide) (by decide) h).1 (by decide)⟩

/-! ## C18: frame -/

/-- C18. Frame. For every gateway state and request: a write (`handleWriteAccount`,
`handleWrite`) or a delete (`handleDelete`) under `(c, k)`, successful or not, leaves the
entry at every key other than `c/k` exactly as it was; the three read handlers and the
three existence checks leave every stored entry as it was whatever they return; and no
handler changes how the gateway answers later calls. -/
theorem handlers_frame (s : Storage) (req : Request) (data : FieldData) :
    (∀ k, k ≠ req.ClientToken ++ "/" ++ data.Get "accountId" →
        (handleWriteAccount s req data).2.entries k = s.entries k)
    ∧ (∀ k, k ≠ req.ClientToken ++ "/" ++ data.Get "path" →
        (handleWrite s req data).2.entries k = s.entries k)
    ∧ (∀ k, k ≠ req.ClientToken ++ "/" ++ data.Get "path" →
        (handleDelete s req data).2.entries k = s.entries k)
    ∧ (handleReadAccount lib s req data).2.entries = s.entries
    ∧ (handleReadSign lib s req data).2.entries = s.entries
    ∧ (handleRead lib s req data).2.entries = s.entries
    ∧ (handleExistenceCheckAccount s req data).2.entries = s.entries
    ∧ (handleExistenceCheckSign s req data).2.entries = s.entries
    ∧ (handleExistenceCheck s req data).2.entries = s.entries
    ∧ (∀ c : Call, (c.run lib s).getErr = s.getErr ∧ (c.run lib s).putErr = s.putErr
        ∧ (c.run lib s).deleteErr = s.deleteErr) := by
  have hra : (handleReadAccount lib s req data).2.entries = s.entries := by
    rcases handleReadAccount_storage lib s req data with e | e <;> simp [e, Storage.record]
  have hrs : (handleReadSign lib s req data).2.entries = s.entries := by
    rcases handleReadSign_storage lib s req data with e | e <;> simp [e, Storage.record]
  have hr : (handleRead lib s req data).2.entries = s.entries := by
    rcases handleRead_storage lib s req data with e | e <;> simp [e, Storage.record]
  refine ⟨(handleWriteAccount_frame s req data).2, (handleWrite_frame s req data).2, ?_,
    hra, hrs, hr, by rw [(existenceCheck_storage s req data).1]; rfl,
    by rw [(existenceCheck_storage s req data).2.1]; rfl,
    by rw [(existenceCheck_storage s req data).2.2]; rfl, ?_⟩
  · intro k hk
    rcases (handleDelete_entries s req data).1 with e | ⟨-, -, e⟩
    · rw [e]
    · rw [e]; simp [hk]
  · rintro ⟨handler, req, data⟩
    cases handler
    · simp [Call.run, (existenceCheck_storage s req data).2.1, Storage.record]
    · rcases handleReadSign_storage lib s req data with e | e <;>
        simp [Call.run, e, Storage.record]
    · simp [Call.run, (existenceCheck_storage s req data).1, Storage.record]
    · rcases handleReadAccount_storage lib s req data with e | e <;>
        simp [Call.run, e, Storage.record]
    · exact (handleWriteAccount_entries s req data).2
    · simp [Call.run, (existenceCheck_storage s req data).2.2, Storage.record]
    · rcases handleRead_storage lib s req data with e | e <;> simp [Call.run, e, Storage.record]
    · exact (handleWrite_entries s req data).2
    · exact (handleDelete_entries s req data).2

/-- C18 at a concrete input: on the gateway that holds `tok-A/acct-1`, a write and a delete
under `tok-B` for `acct-1`, and a read under `tok-A`, leave `tok-A/acct-1` as it was. -/
theorem handlers_frame_witness :
    ("tok-A/acct-1" : String) ≠ "tok-B" ++ "/" ++ scenarioData.Get "accountId"
    ∧ (handleWriteAccount scenarioStorage (scenarioRequest "tok-B" "account")
          scenarioData).2.entries "tok-A/acct-1" = scenarioStorage.entries "tok-A/acct-1"
    ∧ (handleDelete scenarioStorage (scenarioRequest "tok-B" "acct-1")
          scenarioData).2.entries "tok-A/acct-1" = scenarioStorage.entries "tok-A/acct-1"
    ∧ (handleReadAccount scenarioLibrary scenarioStorage (scenarioRequest "tok-A" "account")
          scenarioData).2.entries = scenarioStorage.entries :=
  ⟨by decide,
    (handlers_frame scenarioLibrary scenarioStorage (scenarioRequest "tok-B" "account")
        scenarioData).1
      "tok-A/acct-1" (by decide),
    (handlers_frame scenarioLibrary scenarioStorage (scenarioRequest "tok-B" "acct-1")
        scenarioData).2.2.1
      "tok-A/acct-1" (by decide),
    (handlers_frame scenarioLibrary scenarioStorage (scenarioRequest "tok-A" "account")
        scenarioData).2.2.2.1⟩

/-! ## C19: the existence checks of `account` and `sign` -/

/-- C19. In every gateway state reached from a gateway that holds nothing through the
handlers alone, every stored key contains a `/`; so the existence checks of the `account`
and `sign` patterns, which look up the request path (`account`, resp. `sign`) and not a
resolved key, return `false` with no error whenever the `Get` succeeds. In particular after
`acct-1` was written under `tok-A` the check on `account` still answers `false` for that
very account. -/
theorem existence_check_always_false (s0 : Storage) (calls : List Call) (req : Request)
    (data : FieldData) (h0 : ∀ key, s0.entries key = none) :
    (∀ k, ((runCalls lib s0 calls).entries k).isSome = true → '/' ∈ k.data)
    ∧ (req.Path = "account" → (runCalls lib s0 calls).getErr "account" = none →
        (handleExistenceCheckAccount (runCalls lib s0 calls) req data).1 = (false, none))
    ∧ (req.Path = "sign" → (runCalls lib s0 calls).getErr "sign" = none →
        (handleExistenceCheckSign (runCalls lib s0 calls) req data).1 = (false, none))
    ∧ ((scenarioStorage.entries "tok-A/acct-1").isSome = true
        ∧ (handleExistenceCheckAccount scenarioStorage (scenarioRequest "tok-A" "account")
            scenarioData).1 = (false, none)) := by
  have slash : ∀ k, ((runCalls lib s0 calls).entries k).isSome = true → '/' ∈ k.data := by
    intro k hk
    obtain ⟨entry, he⟩ := Option.isSome_iff_exists.mp hk
    obtain ⟨w, -, hkey, -, -⟩ := runCalls_invariant lib s0 calls h0 k entry he
    obtain ⟨-, logicalId, hform⟩ := Call.writeKey_form w k hkey
    rw [hform]
    exact slash_mem_key _ _
  have none_at : ∀ p : String, '/' ∉ p.data → (runCalls lib s0 calls).entries p = none := by
    intro p hp
    cases he : (runCalls lib s0 calls).entries p with
    | none => rfl
    | some entry => exact absurd (slash p (by simp [he])) hp
  refine ⟨slash, fun hp hg => ?_, fun hp hg => ?_, rfl, rfl⟩
  · have := none_at "account" (by decide)
    simp [handleExistenceCheckAccount, Storage.Get, hp, hg, this]
  · have := none_at "sign" (by decide)
    simp [handleExistenceCheckSign, Storage.Get, hp, hg, this]

/-- C19 at a concrete input: after two writes of `acct-1` under `tok-A` the existence check
of the `account` pattern answers `false`. -/
theorem existence_check_always_false_witness :
    (∀ key, Storage.empty.entries key = none)
    ∧ (scenarioRequest "tok-A" "account").Path = "account"
    ∧ (handleExistenceCheckAccount (runCalls scenarioLibrary Storage.empty
        [⟨HandlerName.handleWriteAccount, scenarioRequest "tok-A" "account", scenarioData⟩,
         ⟨HandlerName.handleWriteAccount, scenarioRequest "tok-A" "account", scenarioData⟩])
        (scenarioRequest "tok-A" "account") scenarioData).1 = (false, none) :=
  ⟨fun _ => rfl, rfl,
    (existence_check_always_false scenarioLibrary Storage.empty
      [⟨HandlerName.handleWriteAccount, scenarioRequest "tok-A" "account", scenarioData⟩,
       ⟨HandlerName.handleWriteAccount, scenarioRequest "tok-A" "account", scenarioData⟩]
      (scenarioRequest "tok-A" "account") scenarioData (fun _ => rfl)).2.1 rfl rfl⟩

end Claims

end Mock
